import Mathlib

/-
  Verification of the outbound transmission engine of the QUIC kernel
  implementation (net/quic/output.c, with timer ids from net/quic/timer.h).

  The embedding is shallow: each C function of output.c that the claims
  concern is translated into a Lean function over an explicit socket state
  `Sk`.  Calls into external collaborators (packet builder, congestion
  controller, timer subsystem, event channel, frame factory) are recorded
  as events in a trace field and their results are supplied as oracle
  parameters, since their code is outside this repository snippet.
  Kernel integer counters are modelled as mathematical integers; the u32
  timer arithmetic of quic_outq_update_loss_timer is modelled with an
  explicit modulus 2^32.
-/

/- Encryption levels, from the spec data model: 0 denotes App, the lowest.
   The numeric values of Initial and Handshake follow the timer.h enum,
   which equates the three per-level loss-timer ids with the crypto level
   values and then continues with SACK and PATH. -/
def QUIC_CRYPTO_APP : Nat := 0
def QUIC_CRYPTO_INITIAL : Nat := 1
def QUIC_CRYPTO_HANDSHAKE : Nat := 2
def QUIC_TIMER_SACK : Nat := 3
def QUIC_TIMER_PATH : Nat := 4

/- Frame type constants.  Their numeric values are those of RFC 9000; only
   their distinctness matters to the claims (the frame factory and the
   type testers live outside the snippet). -/
def QUIC_FRAME_PING : Nat := 1
def QUIC_FRAME_RESET_STREAM : Nat := 4
def QUIC_FRAME_DATA_BLOCKED : Nat := 20
def QUIC_FRAME_STREAM_DATA_BLOCKED : Nat := 21
def QUIC_FRAME_CONNECTION_CLOSE : Nat := 28
def QUIC_FRAME_CONNECTION_CLOSE_APP : Nat := 29
def QUIC_FRAME_DATAGRAM : Nat := 48
def QUIC_FRAME_DATAGRAM_LEN : Nat := 49

/- Event kinds of the user event channel (external header). -/
def QUIC_EVENT_STREAM_UPDATE : Nat := 1
def QUIC_EVENT_CONNECTION_CLOSE : Nat := 2
def QUIC_EVENT_CONNECTION_MIGRATION : Nat := 3

/- Socket states (external header); only CLOSED is observed by a claim. -/
def QUIC_SS_CLOSED : Nat := 2

/-- Modelled from the spec: quic_frame_is_dgram is part of the frame
    factory / serializer, outside the snippet; per the spec a datagram
    frame is one of the two DATAGRAM frame types. -/
def quic_frame_is_dgram (t : Nat) : Bool :=
  t = QUIC_FRAME_DATAGRAM || t = QUIC_FRAME_DATAGRAM_LEN

/-- Stream send-machine states, from the spec data model. -/
inductive StreamSendState where
  | ready
  | send
  | sent
  | recvd
  | resetSent
  | resetRecvd
deriving DecidableEq, Repr

/-- A queued frame (struct quic_frame).  The stream back-pointer is
    modelled by an index `sid` into the stream table plus a `hasStream`
    flag standing for a non-NULL pointer. -/
structure QuicFrame where
  type : Nat
  level : Nat
  len : Nat
  bytes : Nat
  offset : Nat
  sid : Nat
  hasStream : Bool
  number : Int
  transmit_ts : Nat
  ecn : Bool
  path_alt : Nat
deriving DecidableEq, Repr

/-- Per-stream send state (stream->send). -/
structure StreamSend where
  state : StreamSendState
  bytes : Int
  max_bytes : Int
  last_max_bytes : Int
  data_blocked : Bool
  frags : Int
  errcode : Nat
deriving DecidableEq, Repr

/-- Per-level packet-number map (struct quic_pnmap); only the fields
    output.c reads or writes are modelled. -/
structure QuicPnMap where
  inflight : Int
  loss_ts : Nat
  last_sent_ts : Nat
  max_pn_acked : Int
  next_number : Int
deriving DecidableEq, Repr

/-- Events recording calls into external collaborators and the
    observable actions of the outqueue. -/
inductive QEv where
  | frameCreate (ftype : Nat) (ok : Bool)
  | ctrlEnqueue (ftype : Nat) (cork : Bool)
  | transmit
  | transmitCtrl
  | eventRecv (kind : Nat) (handled : Bool)
  | timerReset (tid : Nat) (timeout : Nat)
  | timerStop (tid : Nat)
  | timerReduce (tid : Nat) (timeout : Nat)
  | rttUpdate (ts : Nat) (ack_delay : Nat)
  | setMaxRecordTs (v : Nat)
  | setKeyUpdateTs (v : Nat)
  | setEcn
  | cwndSack (number : Int) (ts : Nat) (bytes : Int) (inflight : Int)
  | cwndTimeout (number : Int) (ts : Nat) (last : Int)
  | setWindow (w : Int)
  | frameFree (ftype : Nat)
  | wfreeEv (bytes : Nat)
  | pathPlSend (number : Int)
  | mssUpdate (v : Nat)
deriving DecidableEq, Repr

/-- The socket-level state visible to output.c: the four frame lists, the
    outqueue counters (struct quic_outqueue), the stream table, the
    per-level packet-number maps, the socket state, plus the trace of
    external calls. -/
structure Sk where
  control_list : List QuicFrame
  stream_list : List QuicFrame
  datagram_list : List QuicFrame
  transmitted_list : List QuicFrame
  bytes : Int
  max_bytes : Int
  last_max_bytes : Int
  data_blocked : Bool
  data_inflight : Int
  inflight : Int
  window : Int
  rtx_count : Nat
  close_errcode : Nat
  close_frame : Nat
  streams : Nat → StreamSend
  pnmap : Nat → QuicPnMap
  sk_state : Nat
  trace : List QEv

/-- Append one external-call event to the trace. -/
def emit (st : Sk) (e : QEv) : Sk := { st with trace := st.trace ++ [e] }

/-- quic_outq_wfree: refunds write-memory accounting; it returns at once
    when the length is zero, otherwise the refund is an external socket
    operation recorded as an event. -/
def quic_outq_wfree (len : Nat) (st : Sk) : Sk :=
  if len = 0 then st else emit st (QEv.wfreeEv len)

/-- quic_outq_transmit drives the external packet builder over the pending
    lists; no claim concerns its internal packing loops, so its invocation
    is recorded as a trace event. -/
def quic_outq_transmit (st : Sk) : Sk := emit st QEv.transmit

/-- quic_outq_transmit_ctrl drives the external packet builder over the
    control list; as for quic_outq_transmit only its invocation is
    recorded. -/
def quic_outq_transmit_ctrl (st : Sk) : Sk := emit st QEv.transmitCtrl

/-- The scan of quic_outq_ctrl_tail for a frame with nonzero level: walk
    the control list and splice the frame in before the first entry whose
    level is zero (App); append at the tail when there is none. -/
def ctrlTailInsert (f : QuicFrame) : List QuicFrame → List QuicFrame
  | [] => [f]
  | p :: rest => if p.level = 0 then f :: p :: rest else p :: ctrlTailInsert f rest

/-- quic_outq_ctrl_tail: enqueue a frame on the control list, prioritizing
    handshake frames (nonzero level) before App-level frames; with
    cork=false, quic_outq_transmit runs immediately after insertion. -/
def quic_outq_ctrl_tail (st : Sk) (f : QuicFrame) (cork : Bool) : Sk :=
  let st' := { st with
    control_list :=
      if f.level ≠ 0 then ctrlTailInsert f st.control_list
      else st.control_list ++ [f],
    trace := st.trace ++ [QEv.ctrlEnqueue f.type cork] }
  if cork then st' else quic_outq_transmit st'

/-- The STREAM_DATA_BLOCKED frame built by the frame factory for a stream;
    the factory (frame.c) is outside the snippet: a fresh control frame
    carries level 0 (App), no payload bytes and no offset. -/
def sdbFrame (sid : Nat) : QuicFrame :=
  { type := QUIC_FRAME_STREAM_DATA_BLOCKED, level := 0, len := 0, bytes := 0,
    offset := 0, sid := sid, hasStream := true, number := 0, transmit_ts := 0,
    ecn := false, path_alt := 0 }

/-- The DATA_BLOCKED frame built by the frame factory. -/
def dbFrame : QuicFrame :=
  { type := QUIC_FRAME_DATA_BLOCKED, level := 0, len := 0, bytes := 0,
    offset := 0, sid := 0, hasStream := false, number := 0, transmit_ts := 0,
    ecn := false, path_alt := 0 }

/-- The PING frame built by the frame factory; callers set its level
    afterwards when needed. -/
def pingFrame (lvl : Nat) : QuicFrame :=
  { type := QUIC_FRAME_PING, level := lvl, len := 0, bytes := 0,
    offset := 0, sid := 0, hasStream := false, number := 0, transmit_ts := 0,
    ecn := false, path_alt := 0 }

/-- The CONNECTION_CLOSE frame built by the frame factory. -/
def closeFrame (ftype lvl : Nat) : QuicFrame :=
  { type := ftype, level := lvl, len := 0, bytes := 0,
    offset := 0, sid := 0, hasStream := false, number := 0, transmit_ts := 0,
    ecn := false, path_alt := 0 }

/-- The condition under which the stream send gate both trips and passes
    its guard, so that its body (STREAM_DATA_BLOCKED synthesis and flag
    updates) runs. -/
def fcStreamCond (st : Sk) (sid len : Nat) : Bool :=
  decide ((st.streams sid).bytes + (len : Int) > (st.streams sid).max_bytes)
    && (!(st.streams sid).data_blocked
        && decide ((st.streams sid).last_max_bytes < (st.streams sid).max_bytes))

/-- The condition under which the connection send gate both trips and
    passes its guard. -/
def fcConnCond (st : Sk) (len : Nat) : Bool :=
  decide (st.bytes + (len : Int) > st.max_bytes)
    && (!st.data_blocked && decide (st.last_max_bytes < st.max_bytes))

/-- The stream send gate of quic_outq_flow_control.  When it trips with
    its guard, it synthesizes a corked STREAM_DATA_BLOCKED frame (when the
    allocation oracle `allocS` succeeds) and records last_max_bytes and
    the data_blocked flag on the stream in every case.  Returns the state
    and the nframe value this gate leaves (the created frame, or NULL). -/
def fcStreamGate (st : Sk) (sid len : Nat) (allocS : Bool) : Sk × Bool :=
  if fcStreamCond st sid len then
    let s := st.streams sid
    let st := emit st (QEv.frameCreate QUIC_FRAME_STREAM_DATA_BLOCKED allocS)
    let st := if allocS then quic_outq_ctrl_tail st (sdbFrame sid) true else st
    let st := { st with streams := (Function.update st.streams sid
      { s with last_max_bytes := s.max_bytes, data_blocked := true }) }
    (st, allocS)
  else (st, false)

/-- The connection send gate of quic_outq_flow_control; `nframe` is the
    value the stream gate left in the C local nframe, overwritten by this
    gate's own allocation result when its body runs. -/
def fcConnGate (st : Sk) (len : Nat) (allocC : Bool) (nframe : Bool) : Sk × Bool :=
  if fcConnCond st len then
    let st := emit st (QEv.frameCreate QUIC_FRAME_DATA_BLOCKED allocC)
    let st := if allocC then quic_outq_ctrl_tail st dbFrame true else st
    let st := { st with last_max_bytes := st.max_bytes, data_blocked := true }
    (st, allocC)
  else (st, nframe)

/-- quic_outq_flow_control: the gate run before each App-level stream
    frame.  `len` is frame->bytes; `allocS` and `allocC` are the oracle
    results of the two possible quic_frame_create calls (a NULL return is
    `false`).  Returns the `blocked` flag and the new state; the blocked
    flag is set by any of the congestion, stream-credit and
    connection-credit trips, and a non-NULL nframe at the end re-enters
    quic_outq_transmit_ctrl. -/
def quic_outq_flow_control (st : Sk) (sid : Nat) (len : Nat)
    (allocS allocC : Bool) : Bool × Sk :=
  let blocked1 := decide (st.data_inflight + (len : Int) > st.window)
  let trip1 := decide ((st.streams sid).bytes + (len : Int) > (st.streams sid).max_bytes)
  let g1 := fcStreamGate st sid len allocS
  let trip2 := decide (g1.1.bytes + (len : Int) > g1.1.max_bytes)
  let g2 := fcConnGate g1.1 len allocC g1.2
  let stF := if g2.2 then quic_outq_transmit_ctrl g2.1 else g2.1
  (blocked1 || trip1 || trip2, stF)

/-- quic_outq_transmit_probe: on an established socket, try to build a
    PING probe (oracle `allocOk`), enqueue it uncorked, record the packet
    number with the path manager, possibly update the MSS, and in every
    case reset the PATH timer to the probe timeout.  On a non-established
    socket, return at once. -/
def quic_outq_transmit_probe (st : Sk) (established allocOk : Bool)
    (plSendMtu taglen probe_timeout : Nat) : Sk :=
  if !established then st
  else
    let st := emit st (QEv.frameCreate QUIC_FRAME_PING allocOk)
    let st :=
      if allocOk then
        let number := (st.pnmap QUIC_CRYPTO_APP).next_number
        let st := quic_outq_ctrl_tail st (pingFrame 0) false
        let st := emit st (QEv.pathPlSend number)
        if plSendMtu ≠ 0 then emit st (QEv.mssUpdate (plSendMtu + taglen)) else st
      else st
    emit st (QEv.timerReset QUIC_TIMER_PATH probe_timeout)

/-- quic_outq_transmit_close: a zero errcode returns at once; otherwise a
    CONNECTION_CLOSE event is offered to the user (oracle `evHandled`) and
    a handled event suppresses everything; otherwise errcode and frame
    type are recorded, a CONNECTION_CLOSE control frame is enqueued at the
    given level when allocation succeeds, and the socket state is set to
    CLOSED. -/
def quic_outq_transmit_close (st : Sk) (ftype errcode lvl : Nat)
    (evHandled allocOk : Bool) : Sk :=
  if errcode = 0 then st
  else
    let st := emit st (QEv.eventRecv QUIC_EVENT_CONNECTION_CLOSE evHandled)
    if evHandled then st
    else
      let st := { st with close_errcode := errcode, close_frame := ftype }
      let st := emit st (QEv.frameCreate QUIC_FRAME_CONNECTION_CLOSE allocOk)
      let st :=
        if allocOk then quic_outq_ctrl_tail st (closeFrame QUIC_FRAME_CONNECTION_CLOSE lvl) false
        else st
      { st with sk_state := QUIC_SS_CLOSED }

/- The u32 modulus for the timer arithmetic. -/
def W32 : Nat := 4294967296

/-- quic_outq_update_loss_timer: with a nonzero pnmap loss_ts the
    per-level timer is reduced toward that instant; with nothing in flight
    it is stopped; otherwise it is reduced toward
    duration * (1 + rtx_count) after last_sent_ts.  A timeout below `now`
    is replaced by now + 1 before the u32 subtraction `timeout - now` is
    handed to quic_timer_reduce. -/
def quic_outq_update_loss_timer (st : Sk) (lvl : Nat) (now duration : Nat) : Sk :=
  let pn := st.pnmap lvl
  if pn.loss_ts ≠ 0 then
    let timeout := if pn.loss_ts < now then (now + 1) % W32 else pn.loss_ts
    emit st (QEv.timerReduce lvl ((timeout + W32 - now) % W32))
  else if pn.inflight = 0 then
    emit st (QEv.timerStop lvl)
  else
    let t := (duration * (1 + st.rtx_count) + pn.last_sent_ts) % W32
    let timeout := if t < now then (now + 1) % W32 else t
    emit st (QEv.timerReduce lvl ((timeout + W32 - now) % W32))

/-- The insertion scan of quic_outq_retransmit_one: skip entries of a
    strictly greater level; splice in before the first entry of a strictly
    smaller level, or, at equal level, before the first entry whose offset
    is zero or greater than the frame's own offset; append at the tail
    when the scan exhausts the list. -/
def retransmitInsert (f : QuicFrame) : List QuicFrame → List QuicFrame
  | [] => [f]
  | p :: rest =>
    if f.level < p.level then p :: retransmitInsert f rest
    else if p.level < f.level then f :: p :: rest
    else if p.offset = 0 || f.offset < p.offset then f :: p :: rest
    else p :: retransmitInsert f rest

/-- quic_outq_retransmit_one: put a timed-out frame back on its origin
    pending list.  A frame with payload bytes goes to the stream list and
    gives back its fragment count, its stream byte count and the outqueue
    byte count; any other frame goes to the control list.  Both lists use
    the retransmitInsert ordering. -/
def quic_outq_retransmit_one (st : Sk) (f : QuicFrame) : Sk :=
  if f.bytes ≠ 0 then
    let s := st.streams f.sid
    { st with
      stream_list := retransmitInsert f st.stream_list,
      streams := (Function.update st.streams f.sid
        { s with frags := s.frags - 1, bytes := s.bytes - (f.bytes : Int) }),
      bytes := st.bytes - (f.bytes : Int) }
  else
    { st with control_list := retransmitInsert f st.control_list }

/-- The loop of quic_outq_retransmit_list over the supplied external list:
    each frame first gives back data_inflight; datagram frames are freed
    (their bytes accumulate for the write-memory refund), all others are
    handed to quic_outq_retransmit_one. -/
def retransmitListLoop : List QuicFrame → Sk → Nat → Sk × Nat
  | [], st, acc => (st, acc)
  | f :: rest, st, acc =>
    let st := { st with data_inflight := st.data_inflight - (f.bytes : Int) }
    if quic_frame_is_dgram f.type then
      retransmitListLoop rest (emit st (QEv.frameFree f.type)) (acc + f.bytes)
    else
      retransmitListLoop rest (quic_outq_retransmit_one st f) acc

/-- quic_outq_retransmit_list: dump an externally supplied frame list back
    into the pending lists, then refund the freed datagram bytes. -/
def quic_outq_retransmit_list (st : Sk) (head : List QuicFrame) : Sk :=
  let p := retransmitListLoop head st 0
  quic_outq_wfree p.2 p.1

/-- quic_outq_set_window: take the congestion controller's current window
    snapshot into the outqueue. -/
def quic_outq_set_window (st : Sk) (w : Int) : Sk :=
  { st with window := w, trace := st.trace ++ [QEv.setWindow w] }

/-- The removal step of the loss walk on one lost frame: give back the
    three in-flight counters, free a datagram frame (accumulating its
    bytes) or hand any other frame to quic_outq_retransmit_one, and on a
    frame with payload bytes feed the congestion controller and refresh
    the window. -/
def markRemoveStep (lvl : Nat) (last congWin : Int) (f : QuicFrame)
    (st : Sk) (count dbytes : Nat) : Sk × Nat × Nat :=
  let pn := st.pnmap lvl
  let st := { st with
    pnmap := (Function.update st.pnmap lvl
      { pn with inflight := pn.inflight - (f.len : Int) }),
    data_inflight := st.data_inflight - (f.bytes : Int),
    inflight := st.inflight - (f.len : Int) }
  let p : Sk × Nat × Nat :=
    if quic_frame_is_dgram f.type then
      (emit st (QEv.frameFree f.type), count, dbytes + f.bytes)
    else
      (quic_outq_retransmit_one st f, count + 1, dbytes)
  let st := p.1
  let st :=
    if f.bytes ≠ 0 then
      quic_outq_set_window (emit st (QEv.cwndTimeout f.number f.transmit_ts last)) congWin
    else st
  (st, p.2.1, p.2.2)

/-- The loss walk of quic_outq_retransmit_mark over the transmitted list.
    `rto` is the congestion controller's current retransmission timeout
    (the controller does not change it during the walk), `congWin` its
    window after a timeout update, `last` the last sent packet number.
    Returns the frames kept on the transmitted list, the state, the count
    of frames returned to pending, and the freed datagram bytes.  A frame
    at the walk's level that is not yet lost stamps the pnmap loss_ts with
    transmit_ts + rto (u32) and stops the walk. -/
def markLoop (lvl : Nat) (immediate : Bool) (now rto : Nat) (last : Int)
    (congWin : Int) :
    List QuicFrame → Sk → Nat → Nat → List QuicFrame × Sk × Nat × Nat
  | [], st, count, dbytes => ([], st, count, dbytes)
  | f :: rest, st, count, dbytes =>
    if lvl ≠ f.level then
      let r := markLoop lvl immediate now rto last congWin rest st count dbytes
      (f :: r.1, r.2)
    else if !immediate && decide ((f.transmit_ts + rto) % W32 > now)
        && decide (f.number + 6 > (st.pnmap lvl).max_pn_acked) then
      let pn := st.pnmap lvl
      let st := { st with pnmap := (Function.update st.pnmap lvl
        { pn with loss_ts := (f.transmit_ts + rto) % W32 }) }
      (f :: rest, st, count, dbytes)
    else
      let p := markRemoveStep lvl last congWin f st count dbytes
      markLoop lvl immediate now rto last congWin rest p.1 p.2.1 p.2.2

/-- quic_outq_retransmit_mark: clear the pnmap loss_ts, walk the
    transmitted list marking lost frames of the given level, refund the
    freed datagram bytes, refresh the loss timer, and return how many
    frames went back to pending. -/
def quic_outq_retransmit_mark (st : Sk) (lvl : Nat) (immediate : Bool)
    (now rto : Nat) (congWin : Int) (duration : Nat) : Sk × Nat :=
  let st := { st with pnmap := (Function.update st.pnmap lvl
    { st.pnmap lvl with loss_ts := 0 }) }
  let last := (st.pnmap lvl).next_number - 1
  let r := markLoop lvl immediate now rto last congWin st.transmitted_list st 0 0
  let st := { r.2.1 with transmitted_list := r.1 }
  let st := quic_outq_wfree r.2.2.2 st
  let st := quic_outq_update_loss_timer st lvl now duration
  (st, r.2.2.1)

/-- The frames quic_outq_retransmit_mark removes from the transmitted
    list, as a pure function of the walk parameters (the walk's removal
    decisions read only the frame fields and the pnmap max_pn_acked, which
    the walk never changes). -/
def markRemoved (lvl : Nat) (immediate : Bool) (now rto : Nat)
    (maxAcked : Int) : List QuicFrame → List QuicFrame
  | [] => []
  | f :: rest =>
    if lvl ≠ f.level then markRemoved lvl immediate now rto maxAcked rest
    else if !immediate && decide ((f.transmit_ts + rto) % W32 > now)
        && decide (f.number + 6 > maxAcked) then []
    else f :: markRemoved lvl immediate now rto maxAcked rest

/-- Sum of the payload bytes of a list of frames. -/
def sumBytes (l : List QuicFrame) : Int :=
  (l.map fun f => (f.bytes : Int)).sum

/-- Sum of the wire lengths of a list of frames. -/
def sumLen (l : List QuicFrame) : Int :=
  (l.map fun f => (f.len : Int)).sum

/-- The local variables of quic_outq_transmitted_sack's walk: the captured
    acked_number and transmit_ts, the acked byte count, and the index of
    the next user-event oracle answer. -/
structure SackLoc where
  acked_number : Int
  transmit_ts : Nat
  acked_bytes : Int
  evIdx : Nat
deriving Repr

/-- The unlink block of quic_outq_transmitted_sack: raise the pnmap
    max_pn_acked, count the acked bytes, give back the three in-flight
    counters, and free the frame. -/
def sackUnlink (lvl : Nat) (f : QuicFrame) (st : Sk) (loc : SackLoc) :
    Sk × SackLoc :=
  let pn := st.pnmap lvl
  let st := { st with pnmap := (Function.update st.pnmap lvl
    { pn with max_pn_acked := if pn.max_pn_acked < f.number then f.number else pn.max_pn_acked,
              inflight := pn.inflight - (f.len : Int) }) }
  let loc := { loc with acked_bytes := loc.acked_bytes + (f.bytes : Int) }
  let st := { st with data_inflight := st.data_inflight - (f.bytes : Int),
                      inflight := st.inflight - (f.len : Int) }
  (emit st (QEv.frameFree f.type), loc)

/-- The trace events of the ack_largest branch: RTT update, pnmap max
    record ts and crypto key update ts, both at twice the new RTO. -/
def ackLargestEvents (f : QuicFrame) (ack_delay rto : Nat) : List QEv :=
  [QEv.rttUpdate f.transmit_ts ack_delay, QEv.setMaxRecordTs (rto * 2),
   QEv.setKeyUpdateTs (rto * 2)]

/-- Processing of one frame the reverse walk of
    quic_outq_transmitted_sack has admitted through the level and range
    filters: the ack_largest bookkeeping, the acked_number and transmit_ts
    capture, the ECN mark, and the per-type state machine, ending either
    in the unlink block or, on a refused STREAM_UPDATE event, in the
    fragment-count rollback that keeps the frame.  Returns whether the
    frame is kept, the state and the walk locals. -/
def sackProcess (lvl : Nat) (A : Int) (ack_delay rto : Nat)
    (oracle : Nat → Bool) (f : QuicFrame) (st : Sk) (loc : SackLoc) :
    Bool × Sk × SackLoc :=
  let st := if f.number = A then
      { st with trace := st.trace ++ ackLargestEvents f ack_delay rto } else st
  let loc := if loc.acked_number = 0 then
      { loc with acked_number := f.number, transmit_ts := f.transmit_ts } else loc
  let st := if f.ecn then emit st QEv.setEcn else st
  if f.bytes ≠ 0 then
    if !f.hasStream then
      (false, sackUnlink lvl f st loc)
    else
      let s := st.streams f.sid
      let st := { st with streams := (Function.update st.streams f.sid
        { s with frags := s.frags - 1 }) }
      if (st.streams f.sid).frags ≠ 0 ∨ (st.streams f.sid).state ≠ StreamSendState.sent then
        (false, sackUnlink lvl f st loc)
      else
        let handled := oracle loc.evIdx
        let st := emit st (QEv.eventRecv QUIC_EVENT_STREAM_UPDATE handled)
        let loc := { loc with evIdx := loc.evIdx + 1 }
        if handled then
          let s' := st.streams f.sid
          (true, { st with streams := (Function.update st.streams f.sid
            { s' with frags := s'.frags + 1 }) }, loc)
        else
          let s' := st.streams f.sid
          let st := { st with streams := (Function.update st.streams f.sid
            { s' with state := StreamSendState.recvd }) }
          (false, sackUnlink lvl f st loc)
  else if f.type = QUIC_FRAME_RESET_STREAM then
    let handled := oracle loc.evIdx
    let st := emit st (QEv.eventRecv QUIC_EVENT_STREAM_UPDATE handled)
    let loc := { loc with evIdx := loc.evIdx + 1 }
    if handled then
      (true, st, loc)
    else
      let s' := st.streams f.sid
      let st := { st with streams := (Function.update st.streams f.sid
        { s' with state := StreamSendState.resetRecvd }) }
      (false, sackUnlink lvl f st loc)
  else if f.type = QUIC_FRAME_STREAM_DATA_BLOCKED then
    let s' := st.streams f.sid
    let st := { st with streams := (Function.update st.streams f.sid
      { s' with data_blocked := false }) }
    (false, sackUnlink lvl f st loc)
  else if f.type = QUIC_FRAME_DATA_BLOCKED then
    let st := { st with data_blocked := false }
    (false, sackUnlink lvl f st loc)
  else
    (false, sackUnlink lvl f st loc)

/-- The reverse walk of quic_outq_transmitted_sack, applied to the
    reversed transmitted list (the C code iterates tail to head; the head
    of the argument list is therefore the most recently transmitted
    frame).  `L`, `S`, `A` are largest, smallest and ack_largest;
    `oracle` answers the user event deliveries in call order.  Returns the
    kept frames (still in reversed order), the state, and the walk
    locals. -/
def sackWalk (lvl : Nat) (L S A : Int) (ack_delay rto : Nat)
    (oracle : Nat → Bool) :
    List QuicFrame → Sk → SackLoc → List QuicFrame × Sk × SackLoc
  | [], st, loc => ([], st, loc)
  | f :: rest, st, loc =>
    if lvl ≠ f.level then
      let r := sackWalk lvl L S A ack_delay rto oracle rest st loc
      (f :: r.1, r.2)
    else if L < f.number then
      let r := sackWalk lvl L S A ack_delay rto oracle rest st loc
      (f :: r.1, r.2)
    else if f.number < S then
      (f :: rest, st, loc)
    else
      let p := sackProcess lvl A ack_delay rto oracle f st loc
      if p.1 then
        let r := sackWalk lvl L S A ack_delay rto oracle rest p.2.1 p.2.2
        (f :: r.1, r.2)
      else
        sackWalk lvl L S A ack_delay rto oracle rest p.2.1 p.2.2

/-- The external environment of one quic_outq_transmitted_sack call:
    oracle answers of the path manager, frame factory, congestion
    controller, inqueue and event channel. -/
structure SackEnv where
  ack_delay : Nat
  rto : Nat
  oracle : Nat → Bool
  pathConfirm : Bool
  pathmtu : Nat
  raise_timer : Bool
  complete : Bool
  plSendMtu : Nat
  taglen : Nat
  probe_timeout : Nat
  established : Bool
  allocOk : Bool
  congWin : Int

/-- The path-MTU confirmation block at the head of
    quic_outq_transmitted_sack: on a confirmed probe, consume a new path
    MTU, re-probe unless probing completed, and possibly extend the path
    timer to thirty probe timeouts. -/
def sackPathBlock (st : Sk) (env : SackEnv) : Sk :=
  if env.pathConfirm then
    let st := if env.pathmtu ≠ 0 then emit st (QEv.mssUpdate (env.pathmtu + env.taglen)) else st
    let st := if !env.complete then
        quic_outq_transmit_probe st env.established env.allocOk
          env.plSendMtu env.taglen env.probe_timeout
      else st
    if env.raise_timer then
      emit st (QEv.timerReset QUIC_TIMER_PATH (env.probe_timeout * 30))
    else st
  else st

/-- quic_outq_transmitted_sack: confirm a path-MTU probe when the path
    manager says so, walk the transmitted list in reverse over
    [smallest, largest], reset rtx_count, and on any acked bytes feed the
    congestion controller and refresh the window.  Returns the new state
    and the acked byte count. -/
def quic_outq_transmitted_sack (st : Sk) (lvl : Nat) (L S A : Int)
    (env : SackEnv) : Sk × Int :=
  let st := sackPathBlock st env
  let r := sackWalk lvl L S A env.ack_delay env.rto env.oracle
    st.transmitted_list.reverse st ⟨0, 0, 0, 0⟩
  let st := { r.2.1 with transmitted_list := r.1.reverse }
  let st := { st with rtx_count := 0 }
  let loc := r.2.2
  let st :=
    if loc.acked_bytes ≠ 0 then
      let st := emit st (QEv.cwndSack loc.acked_number loc.transmit_ts
        loc.acked_bytes st.data_inflight)
      quic_outq_set_window st env.congWin
    else st
  (st, loc.acked_bytes)

/-- The frames the reverse walk of quic_outq_transmitted_sack processes
    (those passing the level and range filters, up to the first frame
    below `smallest`), as a pure function on the reversed transmitted
    list. -/
def processedFrames (lvl : Nat) (L S : Int) : List QuicFrame → List QuicFrame
  | [] => []
  | f :: rest =>
    if lvl ≠ f.level then processedFrames lvl L S rest
    else if L < f.number then processedFrames lvl L S rest
    else if f.number < S then []
    else f :: processedFrames lvl L S rest

/-- One step of the capture of acked_number and transmit_ts: a pair with
    a zero number so far is overwritten by the next processed frame. -/
def capStep (p : Int × Nat) (f : QuicFrame) : Int × Nat :=
  if p.1 = 0 then (f.number, f.transmit_ts) else p

/-- The capture the walk performs over its processed frames, starting
    from the zero-initialised locals. -/
def captureOf (l : List QuicFrame) : Int × Nat :=
  l.foldl capStep (0, 0)

/- Concrete fixtures used by witnesses and counterexamples. -/

/-- A stream send state with every field zeroed. -/
def ss0 : StreamSend :=
  { state := StreamSendState.ready, bytes := 0, max_bytes := 0,
    last_max_bytes := 0, data_blocked := false, frags := 0, errcode := 0 }

/-- A packet-number map with every field zeroed. -/
def pn0 : QuicPnMap :=
  { inflight := 0, loss_ts := 0, last_sent_ts := 0, max_pn_acked := 0,
    next_number := 0 }

/-- A socket state with empty lists and zeroed counters. -/
def st0 : Sk :=
  { control_list := [], stream_list := [], datagram_list := [],
    transmitted_list := [], bytes := 0, max_bytes := 0, last_max_bytes := 0,
    data_blocked := false, data_inflight := 0, inflight := 0, window := 0,
    rtx_count := 0, close_errcode := 0, close_frame := 0,
    streams := fun _ => ss0, pnmap := fun _ => pn0,
    sk_state := 0, trace := [] }

/-- Build a frame from the fields the claims exercise. -/
def mkF (t lvl len byt off sid : Nat) (hasS : Bool) (num : Int) (ts : Nat) :
    QuicFrame :=
  { type := t, level := lvl, len := len, bytes := byt, offset := off,
    sid := sid, hasStream := hasS, number := num, transmit_ts := ts,
    ecn := false, path_alt := 0 }

/- Characterizations of the two insertion scans. -/

/-- The stop condition of the retransmitInsert scan: the scan splices the
    frame in before the first entry of strictly smaller level, or of equal
    level with offset zero or greater than the frame's offset. -/
def rtxBreak (f p : QuicFrame) : Bool :=
  decide (p.level < f.level) ||
    (decide (f.level = p.level) && (decide (p.offset = 0) || decide (f.offset < p.offset)))

theorem retransmitInsert_eq (f : QuicFrame) (l : List QuicFrame) :
    retransmitInsert f l =
      l.takeWhile (fun p => !rtxBreak f p) ++ f :: l.dropWhile (fun p => !rtxBreak f p) := by
  induction l with
  | nil => simp [retransmitInsert]
  | cons p rest ih =>
    by_cases h1 : f.level < p.level
    · have hb : rtxBreak f p = false := by
        simp only [rtxBreak, Bool.or_eq_false_iff, Bool.and_eq_false_iff,
          decide_eq_false_iff_not]
        constructor
        · omega
        · left; omega
      simp [retransmitInsert, h1, hb, List.takeWhile, List.dropWhile, ih]
    · by_cases h2 : p.level < f.level
      · have hb : rtxBreak f p = true := by
          simp only [rtxBreak, Bool.or_eq_true, decide_eq_true_eq]
          left; exact h2
        simp [retransmitInsert, h1, h2, hb, List.takeWhile, List.dropWhile]
      · have heq : f.level = p.level := by omega
        by_cases h3 : p.offset = 0 ∨ f.offset < p.offset
        · have hb : rtxBreak f p = true := by
            simp only [rtxBreak, Bool.or_eq_true, Bool.and_eq_true,
              decide_eq_true_eq]
            right
            exact ⟨heq, by rcases h3 with h | h
                           · left; exact h
                           · right; exact h⟩
          have h3b : (decide (p.offset = 0) || decide (f.offset < p.offset)) = true := by
            simp only [Bool.or_eq_true, decide_eq_true_eq]; exact h3
          simp [retransmitInsert, h1, h2, h3b, hb, List.takeWhile, List.dropWhile]
        · have hb : rtxBreak f p = false := by
            simp only [rtxBreak, Bool.or_eq_false_iff, Bool.and_eq_false_iff,
              decide_eq_false_iff_not]
            constructor
            · omega
            · right
              exact ⟨fun hc => h3 (Or.inl hc), fun hc => h3 (Or.inr hc)⟩
          have h3b : (decide (p.offset = 0) || decide (f.offset < p.offset)) = false := by
            simp only [Bool.or_eq_false_iff, decide_eq_false_iff_not]
            exact ⟨fun hc => h3 (Or.inl hc), fun hc => h3 (Or.inr hc)⟩
          simp [retransmitInsert, h1, h2, h3b, hb, List.takeWhile, List.dropWhile, ih]

theorem ctrlTailInsert_eq (f : QuicFrame) (l : List QuicFrame) :
    ctrlTailInsert f l =
      l.takeWhile (fun p => decide (p.level ≠ 0)) ++ f :: l.dropWhile (fun p => decide (p.level ≠ 0)) := by
  induction l with
  | nil => simp [ctrlTailInsert]
  | cons p rest ih =>
    by_cases h : p.level = 0
    · simp [ctrlTailInsert, h, List.takeWhile, List.dropWhile]
    · simp [ctrlTailInsert, h, List.takeWhile, List.dropWhile, ih]

/-- Ascending-level check over a frame list: true when every frame's level
    is at most the next frame's level (lower levels first). -/
def levelsAscending : List QuicFrame → Bool
  | [] => true
  | [_] => true
  | a :: b :: r => decide (a.level ≤ b.level) && levelsAscending (b :: r)

/- Claim C1.  The claim as frozen says the reinsertion keeps lower-level
   frames before higher-level frames and inserts before the first frame
   whose offset is greater.  The code keeps frames of numerically greater
   level first and also splices in before a frame whose offset is zero. -/

/-- C1 counterexample.  Reinserting an App-level (0) stream frame into a
    stream list holding a level-2 frame leaves the level-2 frame first, so
    lower-level frames do not precede higher-level frames; and reinserting
    an offset-100 frame into a list whose only entry has offset 0 places
    it before that entry although no existing frame has a greater
    offset. -/
theorem claim_C1_counterexample :
    levelsAscending ((quic_outq_retransmit_one
        { st0 with stream_list := [mkF 8 2 10 4 5 1 true 0 0] }
        (mkF 8 0 10 5 3 1 true 0 0)).stream_list) = false
    ∧ (quic_outq_retransmit_one
        { st0 with stream_list := [mkF 8 0 10 6 0 1 true 0 0] }
        (mkF 8 0 10 5 100 1 true 0 0)).stream_list
        ≠ [mkF 8 0 10 6 0 1 true 0 0, mkF 8 0 10 5 100 1 true 0 0]
    ∧ (∀ p ∈ [mkF 8 0 10 6 0 1 true 0 0], ¬ (mkF 8 0 10 5 100 1 true 0 0).offset < p.offset) := by
  decide

/-- C1 as amended: quic_outq_retransmit_one places a frame with payload
    bytes into the stream list (giving back the stream and outqueue byte
    accounting) and any other frame into the control list, splicing it in
    before the first entry of strictly smaller level, or of equal level
    whose offset is zero or greater than the frame's offset; frames of
    numerically greater level therefore precede frames of smaller level. -/
theorem claim_C1 (st : Sk) (f : QuicFrame) :
    (f.bytes ≠ 0 →
      (quic_outq_retransmit_one st f).stream_list =
        st.stream_list.takeWhile (fun p => !rtxBreak f p)
          ++ f :: st.stream_list.dropWhile (fun p => !rtxBreak f p)
      ∧ (quic_outq_retransmit_one st f).control_list = st.control_list)
    ∧ (f.bytes = 0 →
      (quic_outq_retransmit_one st f).control_list =
        st.control_list.takeWhile (fun p => !rtxBreak f p)
          ++ f :: st.control_list.dropWhile (fun p => !rtxBreak f p)
      ∧ (quic_outq_retransmit_one st f).stream_list = st.stream_list) := by
  constructor
  · intro h
    simp [quic_outq_retransmit_one, h, retransmitInsert_eq]
  · intro h
    simp [quic_outq_retransmit_one, h, retransmitInsert_eq]

/-- C1 witness at a concrete frame with payload bytes. -/
theorem claim_C1_witness :
    (mkF 8 0 10 5 3 1 true 0 0).bytes ≠ 0
    ∧ ((quic_outq_retransmit_one { st0 with stream_list := [mkF 8 2 10 4 5 1 true 0 0] }
          (mkF 8 0 10 5 3 1 true 0 0)).stream_list =
        [mkF 8 2 10 4 5 1 true 0 0].takeWhile (fun p => !rtxBreak (mkF 8 0 10 5 3 1 true 0 0) p)
          ++ (mkF 8 0 10 5 3 1 true 0 0)
            :: [mkF 8 2 10 4 5 1 true 0 0].dropWhile (fun p => !rtxBreak (mkF 8 0 10 5 3 1 true 0 0) p)
      ∧ (quic_outq_retransmit_one { st0 with stream_list := [mkF 8 2 10 4 5 1 true 0 0] }
          (mkF 8 0 10 5 3 1 true 0 0)).control_list
        = ({ st0 with stream_list := [mkF 8 2 10 4 5 1 true 0 0] } : Sk).control_list) :=
  ⟨by decide,
   (claim_C1 { st0 with stream_list := [mkF 8 2 10 4 5 1 true 0 0] }
      (mkF 8 0 10 5 3 1 true 0 0)).1 (by decide)⟩

/- Claim C2.  The claim as frozen swaps the two cases of
   quic_outq_ctrl_tail: the code splices a handshake-level frame in before
   the first App-level frame and appends an App-level frame at the tail. -/

/-- C2 counterexample.  Enqueueing a handshake-level frame with an
    App-level frame already queued puts the new frame first, not at the
    tail; and enqueueing an App-level frame behind an existing handshake
    and App frame appends it at the tail, not before the first App
    frame. -/
theorem claim_C2_counterexample :
    (quic_outq_ctrl_tail { st0 with control_list := [mkF 2 0 1 0 0 0 false 0 0] }
        (mkF 6 1 1 0 0 0 false 0 0) true).control_list
      = [mkF 6 1 1 0 0 0 false 0 0, mkF 2 0 1 0 0 0 false 0 0]
    ∧ [mkF 6 1 1 0 0 0 false 0 0, mkF 2 0 1 0 0 0 false 0 0]
      ≠ [mkF 2 0 1 0 0 0 false 0 0, mkF 6 1 1 0 0 0 false 0 0]
    ∧ (quic_outq_ctrl_tail
        { st0 with control_list := [mkF 6 1 1 0 0 0 false 0 0, mkF 2 0 1 0 0 0 false 0 0] }
        (mkF 3 0 1 0 0 0 false 0 0) true).control_list
      = [mkF 6 1 1 0 0 0 false 0 0, mkF 2 0 1 0 0 0 false 0 0, mkF 3 0 1 0 0 0 false 0 0]
    ∧ [mkF 6 1 1 0 0 0 false 0 0, mkF 2 0 1 0 0 0 false 0 0, mkF 3 0 1 0 0 0 false 0 0]
      ≠ [mkF 6 1 1 0 0 0 false 0 0, mkF 3 0 1 0 0 0 false 0 0, mkF 2 0 1 0 0 0 false 0 0] := by
  decide

/-- C2 as amended: a handshake-level frame (level nonzero) is inserted
    immediately before the first existing App-level frame (at the tail
    when there is none), and an App-level frame (level zero) is appended
    at the tail of the control list. -/
theorem claim_C2 (st : Sk) (f : QuicFrame) (cork : Bool) :
    (f.level ≠ 0 →
      (quic_outq_ctrl_tail st f cork).control_list =
        st.control_list.takeWhile (fun p => decide (p.level ≠ 0))
          ++ f :: st.control_list.dropWhile (fun p => decide (p.level ≠ 0)))
    ∧ (f.level = 0 →
      (quic_outq_ctrl_tail st f cork).control_list = st.control_list ++ [f]) := by
  constructor
  · intro h
    cases cork <;>
      simp [quic_outq_ctrl_tail, quic_outq_transmit, emit, h, ctrlTailInsert_eq]
  · intro h
    cases cork <;>
      simp [quic_outq_ctrl_tail, quic_outq_transmit, emit, h]

/-- C2 witness at a concrete handshake-level frame. -/
theorem claim_C2_witness :
    (mkF 6 1 1 0 0 0 false 0 0).level ≠ 0
    ∧ (quic_outq_ctrl_tail { st0 with control_list := [mkF 2 0 1 0 0 0 false 0 0] }
        (mkF 6 1 1 0 0 0 false 0 0) true).control_list =
      [mkF 2 0 1 0 0 0 false 0 0].takeWhile (fun p => decide (p.level ≠ 0))
        ++ (mkF 6 1 1 0 0 0 false 0 0)
          :: [mkF 2 0 1 0 0 0 false 0 0].dropWhile (fun p => decide (p.level ≠ 0)) :=
  ⟨by decide,
   (claim_C2 { st0 with control_list := [mkF 2 0 1 0 0 0 false 0 0] }
      (mkF 6 1 1 0 0 0 false 0 0) true).1 (by decide)⟩

/- Claims C3 and C6: the flow-control gate. -/

/-- Restatement of quic_outq_ctrl_tail as a single record update, used to
    push projections through it. -/
theorem ctrl_tail_eq (st : Sk) (f : QuicFrame) (cork : Bool) :
    quic_outq_ctrl_tail st f cork =
      { st with
        control_list :=
          if f.level ≠ 0 then ctrlTailInsert f st.control_list
          else st.control_list ++ [f],
        trace := st.trace ++ [QEv.ctrlEnqueue f.type cork]
          ++ (if cork then [] else [QEv.transmit]) } := by
  cases cork <;> simp [quic_outq_ctrl_tail, quic_outq_transmit, emit]

/-- The stream gate leaves the outqueue byte budget and its blocked flag
    untouched. -/
theorem fcStreamGate_outq (st : Sk) (sid len : Nat) (aS : Bool) :
    (fcStreamGate st sid len aS).1.bytes = st.bytes
    ∧ (fcStreamGate st sid len aS).1.max_bytes = st.max_bytes
    ∧ (fcStreamGate st sid len aS).1.last_max_bytes = st.last_max_bytes
    ∧ (fcStreamGate st sid len aS).1.data_blocked = st.data_blocked := by
  unfold fcStreamGate
  split <;> cases aS <;> simp [ctrl_tail_eq, emit]

/-- The connection gate leaves the stream table untouched. -/
theorem fcConnGate_streams (st : Sk) (len : Nat) (aC n : Bool) :
    (fcConnGate st len aC n).1.streams = st.streams := by
  unfold fcConnGate
  split <;> cases aC <;> simp [ctrl_tail_eq, emit]

/-- The connection gate only extends the trace, and never with a
    transmitCtrl event. -/
theorem fcConnGate_trace (st : Sk) (len : Nat) (aC n : Bool) :
    ∃ t, (fcConnGate st len aC n).1.trace = st.trace ++ t ∧ QEv.transmitCtrl ∉ t := by
  unfold fcConnGate
  split <;> cases aC <;> simp [ctrl_tail_eq, emit]

/-- The stream gate only extends the trace, and never with a transmitCtrl
    event. -/
theorem fcStreamGate_trace (st : Sk) (sid len : Nat) (aS : Bool) :
    ∃ t, (fcStreamGate st sid len aS).1.trace = st.trace ++ t ∧ QEv.transmitCtrl ∉ t := by
  unfold fcStreamGate
  split <;> cases aS <;> simp [ctrl_tail_eq, emit]

/-- The nframe value the stream gate leaves. -/
theorem fcStreamGate_snd (st : Sk) (sid len : Nat) (aS : Bool) :
    (fcStreamGate st sid len aS).2 = (if fcStreamCond st sid len then aS else false) := by
  unfold fcStreamGate
  split <;> simp_all

/-- The nframe value the connection gate leaves. -/
theorem fcConnGate_snd (st : Sk) (len : Nat) (aC n : Bool) :
    (fcConnGate st len aC n).2 = (if fcConnCond st len then aC else n) := by
  unfold fcConnGate
  split <;> simp_all

/-- Under a tripped stream gate with its guard, the stream gate records
    the new credit and flag and, on allocation success, has enqueued the
    corked STREAM_DATA_BLOCKED frame. -/
theorem fcStreamGate_effect (st : Sk) (sid len : Nat) (aS : Bool)
    (hc : fcStreamCond st sid len = true) :
    ((fcStreamGate st sid len aS).1.streams sid).last_max_bytes = (st.streams sid).max_bytes
    ∧ ((fcStreamGate st sid len aS).1.streams sid).data_blocked = true
    ∧ (aS = true →
        QEv.ctrlEnqueue QUIC_FRAME_STREAM_DATA_BLOCKED true ∈ (fcStreamGate st sid len aS).1.trace) := by
  unfold fcStreamGate
  rw [hc]
  cases aS <;> simp [ctrl_tail_eq, emit, sdbFrame, Function.update_same]

/-- C3: the gate blocks exactly when the congestion, stream-credit or
    connection-credit condition trips; and a tripping stream gate whose
    guard holds records last_max_bytes and the data_blocked flag on the
    stream whether or not the STREAM_DATA_BLOCKED allocation succeeded,
    and enqueues the corked STREAM_DATA_BLOCKED frame when it did. -/
theorem claim_C3 (st : Sk) (sid len : Nat) (allocS allocC : Bool) :
    ((quic_outq_flow_control st sid len allocS allocC).1 = true ↔
      (st.data_inflight + (len : Int) > st.window
       ∨ (st.streams sid).bytes + (len : Int) > (st.streams sid).max_bytes
       ∨ st.bytes + (len : Int) > st.max_bytes))
    ∧ ((st.streams sid).bytes + (len : Int) > (st.streams sid).max_bytes →
       (st.streams sid).data_blocked = false →
       (st.streams sid).last_max_bytes < (st.streams sid).max_bytes →
         ((quic_outq_flow_control st sid len allocS allocC).2.streams sid).last_max_bytes
           = (st.streams sid).max_bytes
         ∧ ((quic_outq_flow_control st sid len allocS allocC).2.streams sid).data_blocked = true
         ∧ (allocS = true →
             QEv.ctrlEnqueue QUIC_FRAME_STREAM_DATA_BLOCKED true
               ∈ (quic_outq_flow_control st sid len allocS allocC).2.trace)) := by
  have houtq := fcStreamGate_outq st sid len allocS
  constructor
  · simp only [quic_outq_flow_control, houtq.1, houtq.2.1,
      Bool.or_eq_true, decide_eq_true_eq]
    tauto
  · intro h1 h2 h3
    have hc : fcStreamCond st sid len = true := by
      simp [fcStreamCond, h1, h2, h3]
    have heff := fcStreamGate_effect st sid len allocS hc
    have hstreams := fcConnGate_streams (fcStreamGate st sid len allocS).1 len allocC
      (fcStreamGate st sid len allocS).2
    have htr := fcConnGate_trace (fcStreamGate st sid len allocS).1 len allocC
      (fcStreamGate st sid len allocS).2
    rcases htr with ⟨t, htr, -⟩
    simp only [quic_outq_flow_control]
    split
    · refine ⟨?_, ?_, ?_⟩
      · simp [quic_outq_transmit_ctrl, emit, hstreams, heff.1]
      · simp [quic_outq_transmit_ctrl, emit, hstreams, heff.2.1]
      · intro ha
        simp only [quic_outq_transmit_ctrl, emit, htr]
        simp [List.mem_append]
        left
        exact heff.2.2 ha
    · refine ⟨?_, ?_, ?_⟩
      · simp [hstreams, heff.1]
      · simp [hstreams, heff.2.1]
      · intro ha
        rw [htr]
        simp [List.mem_append]
        exact Or.inl (heff.2.2 ha)

/-- A stream whose send credit is nearly exhausted, used by the C3 witness
    and the C6 counterexample. -/
def ssC6 : StreamSend :=
  { state := StreamSendState.send, bytes := 9, max_bytes := 10,
    last_max_bytes := 5, data_blocked := false, frags := 0, errcode := 0 }

/-- A socket state in which both the stream send gate and the connection
    send gate trip with their guards for a 5-byte frame. -/
def stC6 : Sk :=
  { st0 with window := 100, max_bytes := 10, bytes := 8, last_max_bytes := 5,
             streams := fun _ => ssC6 }

/-- C3 witness: at stC6 the stream gate trips with its guard and a
    successful allocation, so the credit and flag are recorded and the
    corked STREAM_DATA_BLOCKED frame is enqueued. -/
theorem claim_C3_witness :
    (stC6.streams 1).bytes + (5 : Int) > (stC6.streams 1).max_bytes
    ∧ (stC6.streams 1).data_blocked = false
    ∧ (stC6.streams 1).last_max_bytes < (stC6.streams 1).max_bytes
    ∧ (((quic_outq_flow_control stC6 1 5 true false).2.streams 1).last_max_bytes
         = (stC6.streams 1).max_bytes
       ∧ ((quic_outq_flow_control stC6 1 5 true false).2.streams 1).data_blocked = true
       ∧ (true = true →
           QEv.ctrlEnqueue QUIC_FRAME_STREAM_DATA_BLOCKED true
             ∈ (quic_outq_flow_control stC6 1 5 true false).2.trace)) :=
  ⟨by decide, by decide, by decide,
   (claim_C3 stC6 1 5 true false).2 (by decide) (by decide) (by decide)⟩

/- Claim C6.  The claim as frozen says any emitted blocked frame forces
   the re-entry into the control transmit phase.  The C local nframe is
   overwritten by the connection gate, so a failed DATA_BLOCKED allocation
   there suppresses the re-entry even though a STREAM_DATA_BLOCKED frame
   was emitted by the stream gate. -/

/-- C6 counterexample: at stC6 with a successful STREAM_DATA_BLOCKED
    allocation and a failed DATA_BLOCKED allocation, a blocked frame is
    emitted yet quic_outq_transmit_ctrl is never invoked. -/
theorem claim_C6_counterexample :
    QEv.ctrlEnqueue QUIC_FRAME_STREAM_DATA_BLOCKED true
      ∈ (quic_outq_flow_control stC6 1 5 true false).2.trace
    ∧ QEv.transmitCtrl ∉ (quic_outq_flow_control stC6 1 5 true false).2.trace := by
  decide

/-- C6 as amended: the gate re-enters the control transmit phase exactly
    when the C local nframe is non-NULL on exit, that is when the most
    recent blocked-frame allocation attempt succeeded: the connection
    gate's attempt when its body ran, otherwise the stream gate's attempt
    when its body ran. -/
theorem claim_C6 (st : Sk) (sid len : Nat) (aS aC : Bool) (h : st.trace = []) :
    QEv.transmitCtrl ∈ (quic_outq_flow_control st sid len aS aC).2.trace ↔
      (if fcConnCond st len then aC else if fcStreamCond st sid len then aS else false) = true := by
  obtain ⟨t1, ht1, hn1⟩ := fcStreamGate_trace st sid len aS
  obtain ⟨t2, ht2, hn2⟩ := fcConnGate_trace (fcStreamGate st sid len aS).1 len aC
    (fcStreamGate st sid len aS).2
  have ho := fcStreamGate_outq st sid len aS
  have hcc : fcConnCond (fcStreamGate st sid len aS).1 len = fcConnCond st len := by
    simp [fcConnCond, ho.1, ho.2.1, ho.2.2.1, ho.2.2.2]
  have hg2 : (fcConnGate (fcStreamGate st sid len aS).1 len aC (fcStreamGate st sid len aS).2).2
      = (if fcConnCond st len then aC else if fcStreamCond st sid len then aS else false) := by
    rw [fcConnGate_snd, fcStreamGate_snd, hcc]
  simp only [quic_outq_flow_control, hg2]
  by_cases hb : (if fcConnCond st len then aC else if fcStreamCond st sid len then aS else false) = true
  · simp only [hb, if_true]
    simp [quic_outq_transmit_ctrl, emit, ht2, ht1, h]
  · rw [Bool.not_eq_true] at hb
    simp only [hb]
    simp only [Bool.false_eq_true, if_false]
    rw [ht2, ht1, h]
    simp [List.mem_append]
    exact ⟨fun hc => hn1 hc, fun hc => hn2 hc⟩

/-- C6 witness of the amended claim: with both gates tripping and both
    allocations succeeding, the control transmit phase is re-entered. -/
theorem claim_C6_witness :
    stC6.trace = []
    ∧ (QEv.transmitCtrl ∈ (quic_outq_flow_control stC6 1 5 true true).2.trace ↔
        (if fcConnCond stC6 5 then true else if fcStreamCond stC6 1 5 then true else false) = true) :=
  ⟨by decide, claim_C6 stC6 1 5 true true (by decide)⟩

/- Claim C7: the loss timer.  The clamp of the code replaces a timeout
   strictly below now by now + 1, so a timeout equal to now arms the timer
   with a zero delay, firing at now rather than now + 1. -/

/-- The u32 delay handed to quic_timer_reduce after the clamp: one tick
    when the timeout was in the past, the plain difference otherwise. -/
theorem u32delay (t now : Nat) (ht : t < W32) (hn : now < W32) :
    ((if t < now then (now + 1) % W32 else t) + W32 - now) % W32 =
      (if t < now then 1 else t - now) := by
  by_cases h : t < now
  · simp only [h, if_true]
    simp only [W32] at ht hn ⊢
    omega
  · simp only [h, if_false]
    simp only [W32] at ht hn ⊢
    omega

/-- A pnmap with a stamped loss_ts equal to the current time, in flight
    data and nothing else. -/
def pnC7 : QuicPnMap :=
  { inflight := 3, loss_ts := 100, last_sent_ts := 0, max_pn_acked := 0,
    next_number := 0 }

/-- A socket state whose level-0 pnmap has loss_ts 100. -/
def stC7 : Sk := { st0 with pnmap := fun _ => pnC7 }

/-- C7 counterexample: with loss_ts equal to now (100), the timer is armed
    with a zero delay, so it fires at now, which is earlier than now + 1,
    although loss_ts is nonzero. -/
theorem claim_C7_counterexample :
    (stC7.pnmap 0).loss_ts = 100
    ∧ (quic_outq_update_loss_timer stC7 0 100 7).trace = [QEv.timerReduce 0 0]
    ∧ 100 + 0 < 100 + 1 := by
  decide

/-- C7 as amended: exactly one of three cases, with the clamp only lifting
    timeouts strictly below now to now + 1, so a timeout equal to now arms
    the timer with zero delay.  With a nonzero loss_ts the timer is
    reduced toward that instant; with nothing in flight it is stopped;
    otherwise it is reduced toward duration * (1 + rtx_count) after
    last_sent_ts (u32), with the same clamp. -/
theorem claim_C7 (st : Sk) (lvl now duration : Nat)
    (hnow : now < W32) (hts : (st.pnmap lvl).loss_ts < W32) :
    ((st.pnmap lvl).loss_ts ≠ 0 →
      quic_outq_update_loss_timer st lvl now duration =
        emit st (QEv.timerReduce lvl
          (if (st.pnmap lvl).loss_ts < now then 1 else (st.pnmap lvl).loss_ts - now)))
    ∧ ((st.pnmap lvl).loss_ts = 0 → (st.pnmap lvl).inflight = 0 →
      quic_outq_update_loss_timer st lvl now duration = emit st (QEv.timerStop lvl))
    ∧ ((st.pnmap lvl).loss_ts = 0 → (st.pnmap lvl).inflight ≠ 0 →
      quic_outq_update_loss_timer st lvl now duration =
        emit st (QEv.timerReduce lvl
          (if (duration * (1 + st.rtx_count) + (st.pnmap lvl).last_sent_ts) % W32 < now then 1
           else (duration * (1 + st.rtx_count) + (st.pnmap lvl).last_sent_ts) % W32 - now))) := by
  refine ⟨?_, ?_, ?_⟩
  · intro h
    rw [quic_outq_update_loss_timer, if_pos h]
    simp only [u32delay (st.pnmap lvl).loss_ts now hts hnow]
  · intro h h2
    rw [quic_outq_update_loss_timer]
    simp [h, h2]
  · intro h h2
    have hm : (duration * (1 + st.rtx_count) + (st.pnmap lvl).last_sent_ts) % W32 < W32 :=
      Nat.mod_lt _ (by simp [W32])
    rw [quic_outq_update_loss_timer]
    simp only [h, ne_eq, not_true_eq_false, if_false, h2, if_neg h2]
    rw [u32delay _ now hm hnow]

/-- A socket state whose level-0 pnmap has loss_ts 150, for the C7
    witness. -/
def stC7b : Sk := { st0 with pnmap := fun _ => { pnC7 with loss_ts := 150 } }

/-- C7 witness: a loss_ts of 150 with now 100 arms the timer toward the
    stamped instant. -/
theorem claim_C7_witness :
    (100 : Nat) < W32
    ∧ (stC7b.pnmap 0).loss_ts < W32
    ∧ ((stC7b.pnmap 0).loss_ts ≠ 0 →
        quic_outq_update_loss_timer stC7b 0 100 7 =
          emit stC7b (QEv.timerReduce 0
            (if (stC7b.pnmap 0).loss_ts < 100 then 1 else (stC7b.pnmap 0).loss_ts - 100))) :=
  ⟨by decide, by decide, (claim_C7 stC7b 0 100 7 (by decide) (by decide)).1⟩

/- Claim C8: transmit_close.  The claim as frozen says a nonzero errcode
   with an unhandled event enqueues a CONNECTION_CLOSE frame; the code
   enqueues only when the frame allocation succeeds, while the errcode,
   frame type and CLOSED state are recorded in every case. -/

/-- C8 counterexample: with errcode 7, an unhandled event and a failed
    frame allocation, no CONNECTION_CLOSE frame is enqueued although the
    errcode is recorded and the socket is moved to CLOSED. -/
theorem claim_C8_counterexample :
    (quic_outq_transmit_close st0 QUIC_FRAME_CONNECTION_CLOSE 7 0 false false).control_list = []
    ∧ (quic_outq_transmit_close st0 QUIC_FRAME_CONNECTION_CLOSE 7 0 false false).close_errcode = 7
    ∧ (quic_outq_transmit_close st0 QUIC_FRAME_CONNECTION_CLOSE 7 0 false false).sk_state
        = QUIC_SS_CLOSED
    ∧ (7 : Nat) ≠ 0 := by
  decide

/-- C8 as amended: a zero errcode is a complete no-op; with nonzero
    errcode a handled CONNECTION_CLOSE event returns before recording
    close_errcode and close_frame and before any enqueue or state change;
    otherwise errcode and frame type are recorded, the socket state is set
    to CLOSED, and a CONNECTION_CLOSE control frame at the given level is
    enqueued exactly when the frame allocation succeeds. -/
theorem claim_C8 (st : Sk) (ftype errcode lvl : Nat) (evH allocOk : Bool) :
    (errcode = 0 → quic_outq_transmit_close st ftype errcode lvl evH allocOk = st)
    ∧ (errcode ≠ 0 → evH = true →
        quic_outq_transmit_close st ftype errcode lvl evH allocOk =
          emit st (QEv.eventRecv QUIC_EVENT_CONNECTION_CLOSE true))
    ∧ (errcode ≠ 0 → evH = false →
        (quic_outq_transmit_close st ftype errcode lvl evH allocOk).close_errcode = errcode
        ∧ (quic_outq_transmit_close st ftype errcode lvl evH allocOk).close_frame = ftype
        ∧ (quic_outq_transmit_close st ftype errcode lvl evH allocOk).sk_state = QUIC_SS_CLOSED
        ∧ (allocOk = true →
            (quic_outq_transmit_close st ftype errcode lvl evH allocOk).control_list =
              (if (closeFrame QUIC_FRAME_CONNECTION_CLOSE lvl).level ≠ 0 then
                ctrlTailInsert (closeFrame QUIC_FRAME_CONNECTION_CLOSE lvl) st.control_list
               else st.control_list ++ [closeFrame QUIC_FRAME_CONNECTION_CLOSE lvl]))
        ∧ (allocOk = false →
            (quic_outq_transmit_close st ftype errcode lvl evH allocOk).control_list
              = st.control_list)) := by
  refine ⟨?_, ?_, ?_⟩
  · intro h
    simp [quic_outq_transmit_close, h]
  · intro h hev
    simp [quic_outq_transmit_close, h, hev]
  · intro h hev
    refine ⟨?_, ?_, ?_, ?_, ?_⟩ <;>
      simp [quic_outq_transmit_close, h, hev, ctrl_tail_eq, emit] <;>
      cases allocOk <;> simp [ctrl_tail_eq, emit]

/-- C8 witness: with errcode 7, unhandled event and successful allocation
    at level 0, the close frame is appended and the state moves to
    CLOSED. -/
theorem claim_C8_witness :
    (7 : Nat) ≠ 0 ∧ (false = false) ∧
    ((quic_outq_transmit_close st0 QUIC_FRAME_CONNECTION_CLOSE 7 0 false true).close_errcode = 7
     ∧ (quic_outq_transmit_close st0 QUIC_FRAME_CONNECTION_CLOSE 7 0 false true).close_frame
         = QUIC_FRAME_CONNECTION_CLOSE
     ∧ (quic_outq_transmit_close st0 QUIC_FRAME_CONNECTION_CLOSE 7 0 false true).sk_state
         = QUIC_SS_CLOSED
     ∧ (true = true →
         (quic_outq_transmit_close st0 QUIC_FRAME_CONNECTION_CLOSE 7 0 false true).control_list =
           (if (closeFrame QUIC_FRAME_CONNECTION_CLOSE 0).level ≠ 0 then
             ctrlTailInsert (closeFrame QUIC_FRAME_CONNECTION_CLOSE 0) st0.control_list
            else st0.control_list ++ [closeFrame QUIC_FRAME_CONNECTION_CLOSE 0]))
     ∧ (true = false →
         (quic_outq_transmit_close st0 QUIC_FRAME_CONNECTION_CLOSE 7 0 false true).control_list
           = st0.control_list)) :=
  ⟨by decide, rfl,
   (claim_C8 st0 QUIC_FRAME_CONNECTION_CLOSE 7 0 false true).2.2 (by decide) (by decide)⟩

/- Claim C10: transmit_probe. -/

/-- C10: on an established socket the PATH timer is reset to the probe
    timeout in every case, even when the PING allocation fails, in which
    case nothing is enqueued and no transmission is attempted; on a
    non-established socket the function is the identity. -/
theorem claim_C10 (st : Sk) (established allocOk : Bool)
    (plSendMtu taglen pto : Nat) (h : st.trace = []) :
    (established = false →
      quic_outq_transmit_probe st established allocOk plSendMtu taglen pto = st)
    ∧ (established = true →
      QEv.timerReset QUIC_TIMER_PATH pto
        ∈ (quic_outq_transmit_probe st established allocOk plSendMtu taglen pto).trace
      ∧ (allocOk = false →
          (quic_outq_transmit_probe st established allocOk plSendMtu taglen pto).control_list
            = st.control_list
          ∧ QEv.transmit ∉ (quic_outq_transmit_probe st established allocOk plSendMtu taglen pto).trace
          ∧ QEv.ctrlEnqueue QUIC_FRAME_PING false
              ∉ (quic_outq_transmit_probe st established allocOk plSendMtu taglen pto).trace)) := by
  constructor
  · intro he
    simp [quic_outq_transmit_probe, he]
  · intro he
    constructor
    · cases allocOk <;>
        by_cases hp : plSendMtu = 0 <;>
          simp [quic_outq_transmit_probe, he, hp, ctrl_tail_eq, emit, List.mem_append]
    · intro ha
      subst ha
      simp [quic_outq_transmit_probe, he, emit, h, List.mem_append]

/-- C10 witness: established with a failed allocation still resets the
    PATH timer and enqueues nothing. -/
theorem claim_C10_witness :
    st0.trace = []
    ∧ (QEv.timerReset QUIC_TIMER_PATH 33 ∈ (quic_outq_transmit_probe st0 true false 0 0 33).trace
       ∧ (false = false →
           (quic_outq_transmit_probe st0 true false 0 0 33).control_list = st0.control_list
           ∧ QEv.transmit ∉ (quic_outq_transmit_probe st0 true false 0 0 33).trace
           ∧ QEv.ctrlEnqueue QUIC_FRAME_PING false
               ∉ (quic_outq_transmit_probe st0 true false 0 0 33).trace)) :=
  ⟨rfl, (claim_C10 st0 true false 0 0 33 rfl).2 rfl⟩

/- Claim C9: retransmit_list versus retransmit_mark. -/

theorem sumBytes_nil : sumBytes [] = 0 := rfl

theorem sumBytes_cons (f : QuicFrame) (l : List QuicFrame) :
    sumBytes (f :: l) = (f.bytes : Int) + sumBytes l := by
  simp [sumBytes]

theorem sumLen_cons (f : QuicFrame) (l : List QuicFrame) :
    sumLen (f :: l) = (f.len : Int) + sumLen l := by
  simp [sumLen]

/-- quic_outq_retransmit_one never touches the in-flight counters or the
    packet-number maps. -/
theorem retransmit_one_counters (st : Sk) (f : QuicFrame) :
    (quic_outq_retransmit_one st f).data_inflight = st.data_inflight
    ∧ (quic_outq_retransmit_one st f).inflight = st.inflight
    ∧ (quic_outq_retransmit_one st f).pnmap = st.pnmap := by
  unfold quic_outq_retransmit_one
  split <;> simp

/-- quic_outq_wfree never touches the in-flight counters or the
    packet-number maps. -/
theorem wfree_counters (n : Nat) (st : Sk) :
    (quic_outq_wfree n st).data_inflight = st.data_inflight
    ∧ (quic_outq_wfree n st).inflight = st.inflight
    ∧ (quic_outq_wfree n st).pnmap = st.pnmap := by
  unfold quic_outq_wfree
  split <;> simp [emit]

/-- quic_outq_update_loss_timer never touches the in-flight counters or
    the packet-number maps. -/
theorem update_loss_timer_counters (st : Sk) (lvl now dur : Nat) :
    (quic_outq_update_loss_timer st lvl now dur).data_inflight = st.data_inflight
    ∧ (quic_outq_update_loss_timer st lvl now dur).inflight = st.inflight
    ∧ (quic_outq_update_loss_timer st lvl now dur).pnmap = st.pnmap := by
  by_cases h1 : (st.pnmap lvl).loss_ts ≠ 0
  · simp [quic_outq_update_loss_timer, h1, emit]
  · by_cases h2 : (st.pnmap lvl).inflight = 0
    · simp [quic_outq_update_loss_timer, h1, h2, emit]
    · simp [quic_outq_update_loss_timer, h1, h2, emit]

/-- The counter effect of the quic_outq_retransmit_list loop: every frame
    gives back its payload bytes from data_inflight, and neither the wire
    in-flight counter nor any packet-number map is touched. -/
theorem retransmitListLoop_counters :
    ∀ (l : List QuicFrame) (st : Sk) (acc : Nat),
      (retransmitListLoop l st acc).1.data_inflight = st.data_inflight - sumBytes l
      ∧ (retransmitListLoop l st acc).1.inflight = st.inflight
      ∧ (retransmitListLoop l st acc).1.pnmap = st.pnmap := by
  intro l
  induction l with
  | nil => intro st acc; simp [retransmitListLoop, sumBytes]
  | cons f rest ih =>
    intro st acc
    rw [sumBytes_cons]
    by_cases h : quic_frame_is_dgram f.type = true
    · have hih := ih (emit { st with data_inflight := st.data_inflight - (f.bytes : Int) }
        (QEv.frameFree f.type)) (acc + f.bytes)
      simp only [retransmitListLoop, h, if_true]
      refine ⟨?_, ?_, ?_⟩
      · rw [hih.1]
        show st.data_inflight - (f.bytes : Int) - sumBytes rest
          = st.data_inflight - ((f.bytes : Int) + sumBytes rest)
        omega
      · rw [hih.2.1]; rfl
      · rw [hih.2.2]; rfl
    · rw [Bool.not_eq_true] at h
      have hro := retransmit_one_counters
        { st with data_inflight := st.data_inflight - (f.bytes : Int) } f
      have hih := ih (quic_outq_retransmit_one
        { st with data_inflight := st.data_inflight - (f.bytes : Int) } f) acc
      simp only [retransmitListLoop, h, Bool.false_eq_true, if_false]
      refine ⟨?_, ?_, ?_⟩
      · rw [hih.1, hro.1]
        show st.data_inflight - (f.bytes : Int) - sumBytes rest
          = st.data_inflight - ((f.bytes : Int) + sumBytes rest)
        omega
      · rw [hih.2.1, hro.2.1]
      · rw [hih.2.2, hro.2.2]

/-- quic_outq_set_window never touches the in-flight counters or the
    packet-number maps. -/
theorem set_window_counters (st : Sk) (w : Int) :
    (quic_outq_set_window st w).data_inflight = st.data_inflight
    ∧ (quic_outq_set_window st w).inflight = st.inflight
    ∧ (quic_outq_set_window st w).pnmap = st.pnmap := by
  simp [quic_outq_set_window]

/-- The counter effect of one removal step of the loss walk: every frame
    gives back its payload bytes, its wire length, and its wire length in
    the pnmap, while max_pn_acked is untouched. -/
theorem markRemoveStep_counters (lvl : Nat) (last cw : Int) (f : QuicFrame)
    (st : Sk) (count dbytes : Nat) :
    (markRemoveStep lvl last cw f st count dbytes).1.data_inflight
      = st.data_inflight - (f.bytes : Int)
    ∧ (markRemoveStep lvl last cw f st count dbytes).1.inflight
      = st.inflight - (f.len : Int)
    ∧ ((markRemoveStep lvl last cw f st count dbytes).1.pnmap lvl).inflight
      = (st.pnmap lvl).inflight - (f.len : Int)
    ∧ ((markRemoveStep lvl last cw f st count dbytes).1.pnmap lvl).max_pn_acked
      = (st.pnmap lvl).max_pn_acked := by
  have hro := retransmit_one_counters
    { st with
      pnmap := (Function.update st.pnmap lvl
        { st.pnmap lvl with inflight := (st.pnmap lvl).inflight - (f.len : Int) }),
      data_inflight := st.data_inflight - (f.bytes : Int),
      inflight := st.inflight - (f.len : Int) } f
  by_cases hd : quic_frame_is_dgram f.type = true <;>
    by_cases hb : f.bytes ≠ 0 <;>
      simp [markRemoveStep, hd, hb, emit, quic_outq_set_window, hro.1, hro.2.1, hro.2.2,
        Function.update_same]

/-- The counter effect of the loss walk: the removed frames, as computed
    by markRemoved, give back their payload bytes from data_inflight and
    their wire lengths from inflight and the pnmap, and max_pn_acked is
    never changed. -/
theorem markLoop_counters (lvl : Nat) (imm : Bool) (now rto : Nat) (last cw : Int) :
    ∀ (l : List QuicFrame) (st : Sk) (count dbytes : Nat),
      (markLoop lvl imm now rto last cw l st count dbytes).2.1.data_inflight
        = st.data_inflight - sumBytes (markRemoved lvl imm now rto ((st.pnmap lvl).max_pn_acked) l)
      ∧ (markLoop lvl imm now rto last cw l st count dbytes).2.1.inflight
        = st.inflight - sumLen (markRemoved lvl imm now rto ((st.pnmap lvl).max_pn_acked) l)
      ∧ ((markLoop lvl imm now rto last cw l st count dbytes).2.1.pnmap lvl).inflight
        = (st.pnmap lvl).inflight - sumLen (markRemoved lvl imm now rto ((st.pnmap lvl).max_pn_acked) l)
      ∧ ((markLoop lvl imm now rto last cw l st count dbytes).2.1.pnmap lvl).max_pn_acked
        = (st.pnmap lvl).max_pn_acked := by
  intro l
  induction l with
  | nil => intro st count dbytes; simp [markLoop, markRemoved, sumBytes, sumLen]
  | cons f rest ih =>
    intro st count dbytes
    by_cases h1 : lvl ≠ f.level
    · simp only [markLoop, markRemoved, if_pos h1]
      exact ih st count dbytes
    · by_cases h2 : (!imm && decide ((f.transmit_ts + rto) % W32 > now)
          && decide (f.number + 6 > (st.pnmap lvl).max_pn_acked)) = true
      · simp only [markLoop, markRemoved, if_neg h1, h2, if_true]
        simp [sumBytes, sumLen, Function.update_same]
      · rw [Bool.not_eq_true] at h2
        simp only [markLoop, markRemoved, if_neg h1, h2, Bool.false_eq_true, if_false]
        have hstep := markRemoveStep_counters lvl last cw f st count dbytes
        have hih := ih (markRemoveStep lvl last cw f st count dbytes).1
          (markRemoveStep lvl last cw f st count dbytes).2.1
          (markRemoveStep lvl last cw f st count dbytes).2.2
        rw [hstep.2.2.2] at hih
        rw [sumBytes_cons, sumLen_cons]
        refine ⟨?_, ?_, ?_, ?_⟩
        · rw [hih.1, hstep.1]; omega
        · rw [hih.2.1, hstep.2.1]; omega
        · rw [hih.2.2.1, hstep.2.2.1]; omega
        · rw [hih.2.2.2]

/-- C9: quic_outq_retransmit_list gives back only data_inflight (by each
    frame's payload bytes) and leaves the wire in-flight counter and every
    packet-number map untouched, while quic_outq_retransmit_mark
    decrements all three counters for each frame it removes from the
    transmitted list. -/
theorem claim_C9 :
    (∀ (st : Sk) (head : List QuicFrame),
      (quic_outq_retransmit_list st head).data_inflight = st.data_inflight - sumBytes head
      ∧ (quic_outq_retransmit_list st head).inflight = st.inflight
      ∧ (quic_outq_retransmit_list st head).pnmap = st.pnmap)
    ∧ (∀ (st : Sk) (lvl : Nat) (imm : Bool) (now rto : Nat) (cw : Int) (dur : Nat),
      (quic_outq_retransmit_mark st lvl imm now rto cw dur).1.data_inflight
        = st.data_inflight
          - sumBytes (markRemoved lvl imm now rto ((st.pnmap lvl).max_pn_acked) st.transmitted_list)
      ∧ (quic_outq_retransmit_mark st lvl imm now rto cw dur).1.inflight
        = st.inflight
          - sumLen (markRemoved lvl imm now rto ((st.pnmap lvl).max_pn_acked) st.transmitted_list)
      ∧ ((quic_outq_retransmit_mark st lvl imm now rto cw dur).1.pnmap lvl).inflight
        = (st.pnmap lvl).inflight
          - sumLen (markRemoved lvl imm now rto ((st.pnmap lvl).max_pn_acked) st.transmitted_list)) := by
  constructor
  · intro st head
    have hloop := retransmitListLoop_counters head st 0
    have hwf := wfree_counters (retransmitListLoop head st 0).2 (retransmitListLoop head st 0).1
    simp only [quic_outq_retransmit_list]
    exact ⟨by rw [hwf.1, hloop.1], by rw [hwf.2.1, hloop.2.1], by rw [hwf.2.2, hloop.2.2]⟩
  · intro st lvl imm now rto cw dur
    simp only [quic_outq_retransmit_mark]
    set st1 : Sk := { st with pnmap := (Function.update st.pnmap lvl
      { st.pnmap lvl with loss_ts := 0 }) } with hst1
    have hmax1 : (st1.pnmap lvl).max_pn_acked = (st.pnmap lvl).max_pn_acked := by
      simp [hst1, Function.update_same]
    have hloop := markLoop_counters lvl imm now rto ((st1.pnmap lvl).next_number - 1) cw
      st1.transmitted_list st1 0 0
    rw [hmax1] at hloop
    have htl : st1.transmitted_list = st.transmitted_list := rfl
    rw [htl] at hloop
    set r := markLoop lvl imm now rto ((st1.pnmap lvl).next_number - 1) cw
      st.transmitted_list st1 0 0 with hr
    set st2 : Sk := { r.2.1 with transmitted_list := r.1 } with hst2
    have h2a : st2.data_inflight = r.2.1.data_inflight := rfl
    have h2b : st2.inflight = r.2.1.inflight := rfl
    have h2c : st2.pnmap = r.2.1.pnmap := rfl
    have hwf := wfree_counters r.2.2.2 st2
    have hul := update_loss_timer_counters (quic_outq_wfree r.2.2.2 st2) lvl now dur
    refine ⟨?_, ?_, ?_⟩
    · rw [hul.1, hwf.1, h2a, hloop.1]
    · rw [hul.2.1, hwf.2.1, h2b, hloop.2.1]
    · rw [hul.2.2, hwf.2.2, h2c, hloop.2.2.1]
      simp [hst1, Function.update_same]
theorem update_frags_rollback (g : Nat → StreamSend) (i : Nat) :
    Function.update (Function.update g i { g i with frags := (g i).frags - 1 }) i
      { state := (g i).state, bytes := (g i).bytes, max_bytes := (g i).max_bytes,
        last_max_bytes := (g i).last_max_bytes, data_blocked := (g i).data_blocked,
        frags := (g i).frags - 1 + 1, errcode := (g i).errcode } = g := by
  rw [Function.update_idem]
  have h : (g i).frags - 1 + 1 = (g i).frags := by omega
  rw [h]
  exact Function.update_eq_self i g

theorem sackProcess_refuse (lvl : Nat) (A : Int) (d rto : Nat) (oracle : Nat → Bool)
    (f : QuicFrame) (st : Sk) (loc : SackLoc)
    (h4 : f.bytes ≠ 0) (h5 : f.hasStream = true)
    (h6 : (st.streams f.sid).frags = 1)
    (h7 : (st.streams f.sid).state = StreamSendState.sent)
    (h8 : oracle loc.evIdx = true) :
    sackProcess lvl A d rto oracle f st loc =
      (true,
       { st with trace := st.trace
           ++ (if f.number = A then ackLargestEvents f d rto else [])
           ++ (if f.ecn then [QEv.setEcn] else [])
           ++ [QEv.eventRecv QUIC_EVENT_STREAM_UPDATE true] },
       { loc with
         acked_number := if loc.acked_number = 0 then f.number else loc.acked_number,
         transmit_ts := if loc.acked_number = 0 then f.transmit_ts else loc.transmit_ts,
         evIdx := loc.evIdx + 1 }) := by
  by_cases hA : f.number = A <;> by_cases hZ : loc.acked_number = 0 <;> by_cases hE : f.ecn = true <;>
    (simp only [sackProcess, hA, hZ, hE, h4, h5, h8, emit, Function.update_same,
      if_true, if_false, ne_eq, not_true_eq_false, not_false_eq_true, Bool.not_true,
      Bool.false_eq_true, ite_true, ite_false, List.append_assoc]
     rw [if_neg (by simp [h6, h7])]
     simp [update_frags_rollback])

/-- C5: when the reverse walk processes a stream frame with payload bytes
    that is the last in-flight fragment of a stream in state SENT and the
    STREAM_UPDATE event delivery is refused, the frame's processing leaves
    the persistent state unchanged: the walk continues on the remaining
    frames from a state differing from the original only by the appended
    trace events (so stream.send.frags is rolled back, the frame is kept
    on the transmitted list unfreed, and neither data_inflight, inflight
    nor the packet-number map is decremented for it), while only the walk
    locals advance (capture and event index). -/
theorem claim_C5 (lvl : Nat) (L S A : Int) (d rto : Nat) (oracle : Nat → Bool)
    (f : QuicFrame) (rest : List QuicFrame) (st : Sk) (loc : SackLoc)
    (h1 : f.level = lvl) (h2 : f.number ≤ L) (h3 : S ≤ f.number)
    (h4 : f.bytes ≠ 0) (h5 : f.hasStream = true)
    (h6 : (st.streams f.sid).frags = 1)
    (h7 : (st.streams f.sid).state = StreamSendState.sent)
    (h8 : oracle loc.evIdx = true) :
    sackWalk lvl L S A d rto oracle (f :: rest) st loc =
      (f :: (sackWalk lvl L S A d rto oracle rest
          { st with trace := st.trace
              ++ (if f.number = A then ackLargestEvents f d rto else [])
              ++ (if f.ecn then [QEv.setEcn] else [])
              ++ [QEv.eventRecv QUIC_EVENT_STREAM_UPDATE true] }
          { loc with
            acked_number := if loc.acked_number = 0 then f.number else loc.acked_number,
            transmit_ts := if loc.acked_number = 0 then f.transmit_ts else loc.transmit_ts,
            evIdx := loc.evIdx + 1 }).1,
       (sackWalk lvl L S A d rto oracle rest
          { st with trace := st.trace
              ++ (if f.number = A then ackLargestEvents f d rto else [])
              ++ (if f.ecn then [QEv.setEcn] else [])
              ++ [QEv.eventRecv QUIC_EVENT_STREAM_UPDATE true] }
          { loc with
            acked_number := if loc.acked_number = 0 then f.number else loc.acked_number,
            transmit_ts := if loc.acked_number = 0 then f.transmit_ts else loc.transmit_ts,
            evIdx := loc.evIdx + 1 }).2) := by
  have hp := sackProcess_refuse lvl A d rto oracle f st loc h4 h5 h6 h7 h8
  simp only [sackWalk]
  rw [if_neg (by simp [h1]), if_neg (not_lt.mpr h2), if_neg (not_lt.mpr h3), hp]
  rfl

/-- The stream table of the C5 witness: one fragment in flight, state
    SENT. -/
def ssW5 : StreamSend :=
  { state := StreamSendState.sent, bytes := 500, max_bytes := 1000,
    last_max_bytes := 0, data_blocked := false, frags := 1, errcode := 0 }

/-- The socket state of the C5 witness. -/
def stW5 : Sk := { st0 with streams := fun _ => ssW5, data_inflight := 500, inflight := 520 }

/-- The frame of the C5 witness: a stream frame with payload bytes. -/
def fW5 : QuicFrame := mkF 8 0 520 500 0 1 true 42 1000

/-- C5 witness: at the concrete refused delivery, processing the frame
    leaves everything but the trace and walk locals unchanged and keeps
    the frame. -/
theorem claim_C5_witness :
    sackWalk 0 42 42 42 0 9 (fun _ => true) [fW5] stW5 ⟨0, 0, 0, 0⟩ =
      (fW5 :: (sackWalk 0 42 42 42 0 9 (fun _ => true) []
          { stW5 with trace := stW5.trace
              ++ (if fW5.number = 42 then ackLargestEvents fW5 0 9 else [])
              ++ (if fW5.ecn then [QEv.setEcn] else [])
              ++ [QEv.eventRecv QUIC_EVENT_STREAM_UPDATE true] }
          { (⟨0, 0, 0, 0⟩ : SackLoc) with
            acked_number := if (⟨0, 0, 0, 0⟩ : SackLoc).acked_number = 0 then fW5.number
              else (⟨0, 0, 0, 0⟩ : SackLoc).acked_number,
            transmit_ts := if (⟨0, 0, 0, 0⟩ : SackLoc).acked_number = 0 then fW5.transmit_ts
              else (⟨0, 0, 0, 0⟩ : SackLoc).transmit_ts,
            evIdx := (⟨0, 0, 0, 0⟩ : SackLoc).evIdx + 1 }).1,
       (sackWalk 0 42 42 42 0 9 (fun _ => true) []
          { stW5 with trace := stW5.trace
              ++ (if fW5.number = 42 then ackLargestEvents fW5 0 9 else [])
              ++ (if fW5.ecn then [QEv.setEcn] else [])
              ++ [QEv.eventRecv QUIC_EVENT_STREAM_UPDATE true] }
          { (⟨0, 0, 0, 0⟩ : SackLoc) with
            acked_number := if (⟨0, 0, 0, 0⟩ : SackLoc).acked_number = 0 then fW5.number
              else (⟨0, 0, 0, 0⟩ : SackLoc).acked_number,
            transmit_ts := if (⟨0, 0, 0, 0⟩ : SackLoc).acked_number = 0 then fW5.transmit_ts
              else (⟨0, 0, 0, 0⟩ : SackLoc).transmit_ts,
            evIdx := (⟨0, 0, 0, 0⟩ : SackLoc).evIdx + 1 }).2) :=
  claim_C5 0 42 42 42 0 9 (fun _ => true) fW5 [] stW5 ⟨0, 0, 0, 0⟩
    (by decide) (by decide) (by decide) (by decide) (by decide) (by decide) (by decide) rfl

/-- The trace events of the congestion update and the window refresh,
    used to isolate them inside a trace. -/
def isCwndEv : QEv → Bool
  | QEv.cwndSack _ _ _ _ => true
  | QEv.setWindow _ => true
  | _ => false

set_option maxHeartbeats 2000000 in
theorem sackProcess_capture (lvl : Nat) (A : Int) (d rto : Nat) (oracle : Nat → Bool)
    (f : QuicFrame) (st : Sk) (loc : SackLoc) :
    (sackProcess lvl A d rto oracle f st loc).2.2.acked_number
      = (capStep (loc.acked_number, loc.transmit_ts) f).1
    ∧ (sackProcess lvl A d rto oracle f st loc).2.2.transmit_ts
      = (capStep (loc.acked_number, loc.transmit_ts) f).2 := by
  by_cases hZ : loc.acked_number = 0 <;>
    simp only [sackProcess, sackUnlink, capStep, hZ, emit, if_true, if_false,
      ite_true, ite_false] <;>
    (repeat' split) <;> simp

set_option maxHeartbeats 2000000 in
theorem sackProcess_bytes_mono (lvl : Nat) (A : Int) (d rto : Nat) (oracle : Nat → Bool)
    (f : QuicFrame) (st : Sk) (loc : SackLoc) :
    loc.acked_bytes ≤ (sackProcess lvl A d rto oracle f st loc).2.2.acked_bytes := by
  by_cases hZ : loc.acked_number = 0 <;>
    simp only [sackProcess, sackUnlink, capStep, hZ, emit, if_true, if_false,
      ite_true, ite_false] <;>
    (repeat' split) <;> simp

set_option maxHeartbeats 2000000 in
theorem sackProcess_filter (lvl : Nat) (A : Int) (d rto : Nat) (oracle : Nat → Bool)
    (f : QuicFrame) (st : Sk) (loc : SackLoc) :
    (sackProcess lvl A d rto oracle f st loc).2.1.trace.filter isCwndEv
      = st.trace.filter isCwndEv := by
  by_cases hZ : loc.acked_number = 0 <;>
    simp only [sackProcess, sackUnlink, capStep, hZ, emit, if_true, if_false,
      ite_true, ite_false] <;>
    (repeat' split) <;>
    simp [List.filter_append, isCwndEv, ackLargestEvents]

theorem sackWalk_capture (lvl : Nat) (L S A : Int) (d rto : Nat) (oracle : Nat → Bool) :
    ∀ (l : List QuicFrame) (st : Sk) (loc : SackLoc),
      (sackWalk lvl L S A d rto oracle l st loc).2.2.acked_number
        = ((processedFrames lvl L S l).foldl capStep (loc.acked_number, loc.transmit_ts)).1
      ∧ (sackWalk lvl L S A d rto oracle l st loc).2.2.transmit_ts
        = ((processedFrames lvl L S l).foldl capStep (loc.acked_number, loc.transmit_ts)).2 := by
  intro l
  induction l with
  | nil => intro st loc; simp [sackWalk, processedFrames]
  | cons f rest ih =>
    intro st loc
    by_cases h1 : lvl ≠ f.level
    · simp only [sackWalk, processedFrames, if_pos h1]
      exact ih st loc
    · by_cases h2 : L < f.number
      · simp only [sackWalk, processedFrames, if_neg h1, if_pos h2]
        exact ih st loc
      · by_cases h3 : f.number < S
        · simp [sackWalk, processedFrames, if_neg h1, if_neg h2, if_pos h3]
        · have hc := sackProcess_capture lvl A d rto oracle f st loc
          have hihp := ih (sackProcess lvl A d rto oracle f st loc).2.1
            (sackProcess lvl A d rto oracle f st loc).2.2
          rw [hc.1, hc.2] at hihp
          simp only [sackWalk, processedFrames, if_neg h1, if_neg h2, if_neg h3,
            List.foldl_cons]
          by_cases hk : (sackProcess lvl A d rto oracle f st loc).1 = true
          · simp only [hk, if_true]
            exact hihp
          · rw [Bool.not_eq_true] at hk
            simp only [hk, Bool.false_eq_true, if_false]
            exact hihp

theorem sackWalk_bytes_mono (lvl : Nat) (L S A : Int) (d rto : Nat) (oracle : Nat → Bool) :
    ∀ (l : List QuicFrame) (st : Sk) (loc : SackLoc),
      loc.acked_bytes ≤ (sackWalk lvl L S A d rto oracle l st loc).2.2.acked_bytes := by
  intro l
  induction l with
  | nil => intro st loc; simp [sackWalk]
  | cons f rest ih =>
    intro st loc
    by_cases h1 : lvl ≠ f.level
    · simp only [sackWalk, if_pos h1]
      exact ih st loc
    · by_cases h2 : L < f.number
      · simp only [sackWalk, if_neg h1, if_pos h2]
        exact ih st loc
      · by_cases h3 : f.number < S
        · simp only [sackWalk, if_neg h1, if_neg h2, if_pos h3]
          exact le_refl loc.acked_bytes
        · have hm := sackProcess_bytes_mono lvl A d rto oracle f st loc
          have hihp := ih (sackProcess lvl A d rto oracle f st loc).2.1
            (sackProcess lvl A d rto oracle f st loc).2.2
          simp only [sackWalk, if_neg h1, if_neg h2, if_neg h3]
          by_cases hk : (sackProcess lvl A d rto oracle f st loc).1 = true
          · simp only [hk, if_true]
            exact le_trans hm hihp
          · rw [Bool.not_eq_true] at hk
            simp only [hk, Bool.false_eq_true, if_false]
            exact le_trans hm hihp

theorem sackWalk_filter (lvl : Nat) (L S A : Int) (d rto : Nat) (oracle : Nat → Bool) :
    ∀ (l : List QuicFrame) (st : Sk) (loc : SackLoc),
      (sackWalk lvl L S A d rto oracle l st loc).2.1.trace.filter isCwndEv
        = st.trace.filter isCwndEv := by
  intro l
  induction l with
  | nil => intro st loc; simp [sackWalk]
  | cons f rest ih =>
    intro st loc
    by_cases h1 : lvl ≠ f.level
    · simp only [sackWalk, if_pos h1]
      exact ih st loc
    · by_cases h2 : L < f.number
      · simp only [sackWalk, if_neg h1, if_pos h2]
        exact ih st loc
      · by_cases h3 : f.number < S
        · simp [sackWalk, if_neg h1, if_neg h2, if_pos h3]
        · have hf := sackProcess_filter lvl A d rto oracle f st loc
          have hihp := ih (sackProcess lvl A d rto oracle f st loc).2.1
            (sackProcess lvl A d rto oracle f st loc).2.2
          rw [hf] at hihp
          simp only [sackWalk, if_neg h1, if_neg h2, if_neg h3]
          by_cases hk : (sackProcess lvl A d rto oracle f st loc).1 = true
          · simp only [hk, if_true]
            exact hihp
          · rw [Bool.not_eq_true] at hk
            simp only [hk, Bool.false_eq_true, if_false]
            exact hihp

theorem sackPathBlock_transmitted (st : Sk) (env : SackEnv) :
    (sackPathBlock st env).transmitted_list = st.transmitted_list := by
  unfold sackPathBlock quic_outq_transmit_probe
  (repeat' split) <;> simp [ctrl_tail_eq, emit, quic_outq_transmit]

theorem sackPathBlock_filter (st : Sk) (env : SackEnv) :
    (sackPathBlock st env).trace.filter isCwndEv = st.trace.filter isCwndEv := by
  unfold sackPathBlock quic_outq_transmit_probe
  (repeat' split) <;>
    simp [ctrl_tail_eq, emit, quic_outq_transmit, List.filter_append, isCwndEv]

/- Claim C4.  The capture of acked_number and transmit_ts uses the C
   sentinel `if (!acked_number)` against a zero-initialised local, so a
   processed frame whose packet number is 0 does not lock the capture: the
   next processed frame overwrites it, and the congestion update can
   receive the number and timestamp of a later processed frame instead of
   the first one. -/

/-- The stream table of the C4 counterexample: two in-flight fragments. -/
def ssC4 : StreamSend :=
  { state := StreamSendState.send, bytes := 0, max_bytes := 100,
    last_max_bytes := 0, data_blocked := false, frags := 2, errcode := 0 }

/-- The C4 counterexample state: the transmitted list holds a frame with
    packet number 5 (timestamp 200) and, at the tail, a frame with packet
    number 0 (timestamp 100); the reverse walk processes number 0
    first. -/
def stC4 : Sk :=
  { st0 with data_inflight := 12, inflight := 30,
             transmitted_list := [mkF 8 0 20 5 0 1 true 5 200, mkF 8 0 10 7 0 1 true 0 100],
             streams := fun _ => ssC4 }

/-- The external environment of the C4 counterexample. -/
def envC4 : SackEnv :=
  { ack_delay := 0, rto := 9, oracle := fun _ => false, pathConfirm := false,
    pathmtu := 0, raise_timer := false, complete := true, plSendMtu := 0, taglen := 0,
    probe_timeout := 0, established := true, allocOk := true, congWin := 999 }

/-- C4 counterexample: the first frame processed by the reverse walk has
    packet number 0 and transmit_ts 100, yet the single congestion update
    in the trace carries number 5 and transmit_ts 200, taken from the
    second processed frame. -/
theorem claim_C4_counterexample :
    (processedFrames 0 5 0 stC4.transmitted_list.reverse).head?
      = some (mkF 8 0 10 7 0 1 true 0 100)
    ∧ (quic_outq_transmitted_sack stC4 0 5 0 3 envC4).1.trace
      = [QEv.frameFree 8, QEv.frameFree 8, QEv.cwndSack 5 200 12 0, QEv.setWindow 999]
    ∧ (200 : Nat) ≠ 100 ∧ (5 : Int) ≠ 0 := by
  decide

/-- C4 as amended: after a transmitted_sack call, rtx_count is 0
    unconditionally; the congestion update and the window refresh run iff
    at least one byte was acked; and the acked_number and transmit_ts
    handed to the congestion update are the zero-sentinel capture over the
    processed frames of the reverse walk (the first processed frame with a
    nonzero packet number locks the capture; earlier processed frames
    numbered 0 are overwritten), together with the acked byte count the
    call returns and the data_inflight left after the walk. -/
theorem claim_C4 (st : Sk) (lvl : Nat) (L S A : Int) (env : SackEnv)
    (h : st.trace = []) :
    (quic_outq_transmitted_sack st lvl L S A env).1.rtx_count = 0
    ∧ 0 ≤ (quic_outq_transmitted_sack st lvl L S A env).2
    ∧ (∀ n ts ab di, QEv.cwndSack n ts ab di ∈ (quic_outq_transmitted_sack st lvl L S A env).1.trace →
        n = (captureOf (processedFrames lvl L S st.transmitted_list.reverse)).1
        ∧ ts = (captureOf (processedFrames lvl L S st.transmitted_list.reverse)).2
        ∧ ab = (quic_outq_transmitted_sack st lvl L S A env).2
        ∧ di = (quic_outq_transmitted_sack st lvl L S A env).1.data_inflight)
    ∧ ((∃ n ts ab di, QEv.cwndSack n ts ab di ∈ (quic_outq_transmitted_sack st lvl L S A env).1.trace)
        ↔ 0 < (quic_outq_transmitted_sack st lvl L S A env).2)
    ∧ (QEv.setWindow env.congWin ∈ (quic_outq_transmitted_sack st lvl L S A env).1.trace
        ↔ 0 < (quic_outq_transmitted_sack st lvl L S A env).2) := by
  have htl := sackPathBlock_transmitted st env
  have hfil1 : (sackPathBlock st env).trace.filter isCwndEv = [] := by
    rw [sackPathBlock_filter, h]
    rfl
  have hfil2 := sackWalk_filter lvl L S A env.ack_delay env.rto env.oracle
    ((sackPathBlock st env).transmitted_list.reverse) (sackPathBlock st env) ⟨0, 0, 0, 0⟩
  rw [hfil1] at hfil2
  have hcap := sackWalk_capture lvl L S A env.ack_delay env.rto env.oracle
    ((sackPathBlock st env).transmitted_list.reverse) (sackPathBlock st env) ⟨0, 0, 0, 0⟩
  have hmono := sackWalk_bytes_mono lvl L S A env.ack_delay env.rto env.oracle
    ((sackPathBlock st env).transmitted_list.reverse) (sackPathBlock st env) ⟨0, 0, 0, 0⟩
  rw [htl] at hfil2 hcap hmono
  simp only [quic_outq_transmitted_sack]
  rw [htl]
  set q := sackWalk lvl L S A env.ack_delay env.rto env.oracle
    st.transmitted_list.reverse (sackPathBlock st env) ⟨0, 0, 0, 0⟩ with hq
  have hcap1 : q.2.2.acked_number
      = (captureOf (processedFrames lvl L S st.transmitted_list.reverse)).1 := hcap.1
  have hcap2 : q.2.2.transmit_ts
      = (captureOf (processedFrames lvl L S st.transmitted_list.reverse)).2 := hcap.2
  have hmono0 : (0 : Int) ≤ q.2.2.acked_bytes := hmono
  have hnot : ∀ n ts ab di, QEv.cwndSack n ts ab di ∉ q.2.1.trace := by
    intro n ts ab di hc
    have hm : QEv.cwndSack n ts ab di ∈ List.filter isCwndEv q.2.1.trace :=
      List.mem_filter.mpr (And.intro hc rfl)
    rw [hfil2] at hm
    exact absurd hm (List.not_mem_nil _)
  have hnotW : QEv.setWindow env.congWin ∉ q.2.1.trace := by
    intro hc
    have hm : QEv.setWindow env.congWin ∈ List.filter isCwndEv q.2.1.trace :=
      List.mem_filter.mpr (And.intro hc rfl)
    rw [hfil2] at hm
    exact absurd hm (List.not_mem_nil _)
  by_cases hab : q.2.2.acked_bytes ≠ 0
  · rw [if_pos hab]
    have hpos : (0 : Int) < q.2.2.acked_bytes := lt_of_le_of_ne hmono0 (Ne.symm hab)
    simp only [quic_outq_set_window, emit, List.append_assoc]
    refine ⟨by trivial, hmono0, ?_, ?_, ?_⟩
    · intro n ts ab di hmem
      simp only [List.mem_append, List.mem_singleton] at hmem
      rcases hmem with hmem | hmem | hmem
      · exact absurd hmem (hnot n ts ab di)
      · injection hmem with e1 e2 e3 e4
        exact ⟨e1.trans hcap1, e2.trans hcap2, e3, e4⟩
      · exact absurd hmem (by simp)
    · constructor
      · intro _
        exact hpos
      · intro _
        refine ⟨q.2.2.acked_number, q.2.2.transmit_ts, q.2.2.acked_bytes,
          q.2.1.data_inflight, ?_⟩
        simp [List.mem_append]
    · constructor
      · intro _
        exact hpos
      · intro _
        simp [List.mem_append]
  · rw [if_neg hab]
    have hzero : q.2.2.acked_bytes = 0 := not_not.mp hab
    refine ⟨by trivial, hmono0, ?_, ?_, ?_⟩
    · intro n ts ab di hmem
      exact absurd hmem (hnot n ts ab di)
    · constructor
      · rintro ⟨n, ts, ab, di, hmem⟩
        exact absurd hmem (hnot n ts ab di)
      · intro hlt
        rw [hzero] at hlt
        exact absurd hlt (lt_irrefl 0)
    · constructor
      · intro hmem
        exact absurd hmem hnotW
      · intro hlt
        rw [hzero] at hlt
        exact absurd hlt (lt_irrefl 0)

/-- C4 witness at the concrete counterexample state: every conjunct of the
    amended claim holds there. -/
theorem claim_C4_witness :
    stC4.trace = []
    ∧ ((quic_outq_transmitted_sack stC4 0 5 0 3 envC4).1.rtx_count = 0
       ∧ 0 ≤ (quic_outq_transmitted_sack stC4 0 5 0 3 envC4).2
       ∧ (∀ n ts ab di,
           QEv.cwndSack n ts ab di ∈ (quic_outq_transmitted_sack stC4 0 5 0 3 envC4).1.trace →
             n = (captureOf (processedFrames 0 5 0 stC4.transmitted_list.reverse)).1
             ∧ ts = (captureOf (processedFrames 0 5 0 stC4.transmitted_list.reverse)).2
             ∧ ab = (quic_outq_transmitted_sack stC4 0 5 0 3 envC4).2
             ∧ di = (quic_outq_transmitted_sack stC4 0 5 0 3 envC4).1.data_inflight)
       ∧ ((∃ n ts ab di,
             QEv.cwndSack n ts ab di ∈ (quic_outq_transmitted_sack stC4 0 5 0 3 envC4).1.trace)
           ↔ 0 < (quic_outq_transmitted_sack stC4 0 5 0 3 envC4).2)
       ∧ (QEv.setWindow envC4.congWin ∈ (quic_outq_transmitted_sack stC4 0 5 0 3 envC4).1.trace
           ↔ 0 < (quic_outq_transmitted_sack stC4 0 5 0 3 envC4).2)) :=
  ⟨rfl, claim_C4 stC4 0 5 0 3 envC4 rfl⟩
